import Mathlib

/-! ESS demo: sensor, dew point, LCD history and update cycle

A shallow embedding of `ess_demo/src/sensor.c`, `dewpoint.c`, `lcd.c` and `main.c`.

Modelling conventions
* Module-level `static` variables of the C files are the fields of `State`.
* Calls into the platform (telemetry service, kernel timers, chart widget) are
  recorded, in program order, in `State.calls`.
* Machine integers are `Int`/`Nat`; every narrowing conversion is written out
  with an explicit modulus (`to_int8`, `to_int16`, `to_int32`, `to_uint8`,
  `to_uint16`).  Signed arithmetic is two's complement.
* `float` values are exact numbers: rationals for what the sensor accessors
  produce, reals where `log10` is involved.  Rounding of binary floating point
  is outside the model.
* The `int16_t` history arrays are kept as their 14 bytes of memory
  (little-endian, as on the nRF52/nRF53 targets named in `sensor.c`), because
  `memset`/`memmove` take byte counts.
-/

namespace EssDemo

/-! ## Machine integers -/

/-- Conversion to `int8_t` (two's complement wrap). -/
def to_int8 (x : Int) : Int := (x + 128) % 256 - 128

/-- Conversion to `int16_t` (two's complement wrap). -/
def to_int16 (x : Int) : Int := (x + 32768) % 65536 - 32768

/-- Conversion to `int32_t` (two's complement wrap). -/
def to_int32 (x : Int) : Int := (x + 2147483648) % 4294967296 - 2147483648

/-- Conversion to `uint8_t`. -/
def to_uint8 (x : Int) : Nat := (x % 256).toNat

/-- Conversion to `uint16_t`. -/
def to_uint16 (x : Int) : Nat := (x % 65536).toNat

/-- The C cast of a floating value to an integer type, before narrowing:
the fractional part is discarded (truncation toward zero). -/
def float_to_int {α : Type} [LinearOrderedRing α] [FloorRing α] (x : α) : Int :=
  if 0 ≤ x then ⌊x⌋ else ⌈x⌉

/-! ## Platform interface -/

/-- Zephyr `struct sensor_value`: integer part `val1`, millionths `val2`. -/
structure sensor_value where
  val1 : Int
  val2 : Int
deriving DecidableEq, Repr

/-- What the sensor driver hands back from one `sensor_sample_fetch` followed
by the three `sensor_channel_get` calls of `read_sensor`. -/
structure SensorReading where
  temperature : sensor_value
  pressure : sensor_value
  humidity : sensor_value
deriving DecidableEq, Repr

/-- The two kernel timers of the application. -/
inductive Timer where
  | ess_svc_update_timer
  | ess_lcd_display_update_timer
deriving DecidableEq, Repr

/-- The four chart series, which are also the four check boxes and the four
history buffers. -/
inductive Series where
  | temperature
  | humidity
  | pressure
  | dew_point
deriving DecidableEq, Repr

/-- The objects an LVGL event can be delivered for. -/
inductive UiObject where
  | ui_check_temperature
  | ui_check_humidity
  | ui_check_pressure
  | ui_check_dew_point
  | ui_button_clear
  | other
deriving DecidableEq, Repr

/-- LVGL event codes used by the handlers; `other` stands for every code the
handlers ignore. -/
inductive lv_event_t where
  | LV_EVENT_VALUE_CHANGED
  | LV_EVENT_CLICKED
  | other
deriving DecidableEq, Repr

/-- The fixed error strings `main` passes to `setup_lcd`. -/
inductive ErrorString where
  | sensor_not_detected
  | bluetooth_init_failed
deriving DecidableEq, Repr

/-- What `display_string_buffer` holds (the uptime is left out): nothing yet,
the connected peer, the advertising text, or the start-up error. -/
inductive StatusText where
  | empty
  | connected (type : Nat) (address : List Nat)
  | advertising
  | error (error_string : Option ErrorString)
deriving DecidableEq, Repr

/-- Calls made to the platform, as recorded in `State.calls`.  Timer durations
are in milliseconds. -/
inductive Call where
  | ess_svc_update_temperature (value : Int)
  | ess_svc_update_humidity (value : Int)
  | ess_svc_update_pressure (value : Int)
  | ess_svc_update_dew_point (value : Int)
  | k_timer_start (timer : Timer) (duration period : Nat)
  | k_timer_stop (timer : Timer)
  | lv_chart_set_next (series : Series) (value : Int)
  | lv_chart_clear_series (series : Series)
  | lv_chart_refresh
  | lv_task_handler
  | lv_label_set_text (text : StatusText)
  | display_blanking_off
  | bt_enable
  | bt_le_adv_start
  | bt_conn_cb_register
  | dis_init
  | ess_svc_init
deriving DecidableEq, Repr

/-- All module-level variables of `sensor.c` and `lcd.c`, the state of the four
check box widgets, and the record of platform calls. -/
structure State where
  temperature_value : sensor_value
  pressure_value : sensor_value
  humidity_value : sensor_value
  sensor_present : Bool
  lcd_present : Bool
  display_string_buffer : StatusText
  chart_data_buffer_temperature : List Nat
  chart_data_buffer_humidity : List Nat
  chart_data_buffer_pressure : List Nat
  chart_data_buffer_dew_point : List Nat
  chart_readings : Nat
  remote_device_connected : Bool
  remote_device_type : Nat
  remote_device_address : List Nat
  display_update_count : Nat
  check_temperature : Bool
  check_humidity : Bool
  check_pressure : Bool
  check_dew_point : Bool
  calls : List Call
deriving DecidableEq, Repr

/-- The state at program start: C zero-initialises statics. -/
def State.init : State where
  temperature_value := ⟨0, 0⟩
  pressure_value := ⟨0, 0⟩
  humidity_value := ⟨0, 0⟩
  sensor_present := false
  lcd_present := false
  display_string_buffer := .empty
  chart_data_buffer_temperature := List.replicate 14 0
  chart_data_buffer_humidity := List.replicate 14 0
  chart_data_buffer_pressure := List.replicate 14 0
  chart_data_buffer_dew_point := List.replicate 14 0
  chart_readings := 0
  remote_device_connected := false
  remote_device_type := 0
  remote_device_address := List.replicate 6 0
  display_update_count := 0
  check_temperature := false
  check_humidity := false
  check_pressure := false
  check_dew_point := false
  calls := []

/-- Record one platform call. -/
def State.call (s : State) (c : Call) : State :=
  { s with calls := s.calls ++ [c] }

/-! ## sensor.c -/

def TEMPERATURE_VAL1_MULTIPLIER : Int := 100
def TEMPERATURE_VAL2_DIVIDER : Int := 10000
def HUMIDITY_VAL1_MULTIPLIER : Int := 100
def HUMIDITY_VAL2_DIVIDER : Int := 10000
def PRESSURE_VAL1_MULTIPLIER : Int := 10000
def PRESSURE_VAL2_DIVIDER : Int := 100
def FLOAT_TEMPERATURE_DIVIDER : ℚ := 1000000
def FLOAT_HUMIDITY_DIVIDER : ℚ := 1000000
def FLOAT_PRESSURE_DIVIDER : ℚ := 1000
def FLOAT_PRESSURE_MULTIPLIER : ℚ := 1000

/-- The function `setup_sensor`; `dev` tells whether `device_get_binding` returned a
device (`true`) or `NULL` (`false`). -/
def setup_sensor (dev : Bool) (s : State) : State :=
  { s with
    sensor_present := if dev = false then false else true
    temperature_value := ⟨0, 0⟩
    pressure_value := ⟨0, 0⟩
    humidity_value := ⟨0, 0⟩ }

/-- The function `is_sensor_present`. -/
def is_sensor_present (s : State) : Bool := s.sensor_present

/-- The function `read_sensor`; `drv` is what the driver returns for this fetch. -/
def read_sensor (drv : SensorReading) (s : State) : State :=
  if s.sensor_present then
    { s with
      temperature_value := drv.temperature
      pressure_value := drv.pressure
      humidity_value := drv.humidity }
  else s

/-- The accessor `read_temperature`: `int` arithmetic (32 bit), C division, result
converted to `int16_t`. -/
def read_temperature (s : State) : Int :=
  to_int16 (to_int32 (to_int32 (s.temperature_value.val1 * TEMPERATURE_VAL1_MULTIPLIER) +
    Int.tdiv s.temperature_value.val2 TEMPERATURE_VAL2_DIVIDER))

/-- The accessor `read_humidity`, converted to `int16_t`. -/
def read_humidity (s : State) : Int :=
  to_int16 (to_int32 (to_int32 (s.humidity_value.val1 * HUMIDITY_VAL1_MULTIPLIER) +
    Int.tdiv s.humidity_value.val2 HUMIDITY_VAL2_DIVIDER))

/-- The accessor `read_pressure`, an `int32_t`. -/
def read_pressure (s : State) : Int :=
  to_int32 (to_int32 (s.pressure_value.val1 * PRESSURE_VAL1_MULTIPLIER) +
    Int.tdiv s.pressure_value.val2 PRESSURE_VAL2_DIVIDER)

/-- The accessor `read_temperature_float`: the value written through the pointer. -/
def read_temperature_float (s : State) : ℚ :=
  (s.temperature_value.val2 : ℚ) / FLOAT_TEMPERATURE_DIVIDER + s.temperature_value.val1

/-- The accessor `read_humidity_float`. -/
def read_humidity_float (s : State) : ℚ :=
  (s.humidity_value.val2 : ℚ) / FLOAT_HUMIDITY_DIVIDER + s.humidity_value.val1

/-- The accessor `read_pressure_float`. -/
def read_pressure_float (s : State) : ℚ :=
  (s.pressure_value.val2 : ℚ) / FLOAT_PRESSURE_DIVIDER +
    (s.pressure_value.val1 : ℚ) * FLOAT_PRESSURE_MULTIPLIER

/-! ## dewpoint.c -/

/-- The first value assigned to `hTmp` in `calculate_dew_point`, in exact real
arithmetic; `17.62 - dew_point_h` is the denominator of the second
assignment. -/
noncomputable def dew_point_h (fTemp fHum : ℝ) : ℝ :=
  (Real.logb 10 fHum - 2) / 0.4343 + (17.62 * fTemp) / (243.12 + fTemp)

/-- The value of `hTmp` at the `return` of `calculate_dew_point`, in exact real
arithmetic.  `log10` of a non-positive number is not represented faithfully
(`Real.logb` returns a junk real there). -/
noncomputable def dew_point_hTmp (fTemp fHum : ℝ) : ℝ :=
  let hTmp : ℝ := (Real.logb 10 fHum - 2) / 0.4343 + (17.62 * fTemp) / (243.12 + fTemp)
  243.12 * hTmp / (17.62 - hTmp)

/-- The function `calculate_dew_point` with its formula evaluated in exact real
arithmetic: the real `hTmp` cast to `int8_t`.  The roundings of `float hTmp` to
binary32 at its two assignments are not represented, so where the exact `hTmp`
is an integer or within rounding distance of one the value returned by the
compiled function can differ by one from this one. -/
noncomputable def calculate_dew_point (fTemp fHum : ℝ) : Int :=
  to_int8 (float_to_int (dew_point_hTmp fTemp fHum))

/-! ## Byte-level memory -/

/-- The size `sizeof(int16_t)`. -/
def SIZEOF_INT16 : Nat := 2

/-- Read element `i` of an `int16_t` array kept as bytes; `none` when the
element lies outside the array. -/
def int16_at? (buf : List Nat) (i : Nat) : Option Int :=
  match buf[SIZEOF_INT16 * i]?, buf[SIZEOF_INT16 * i + 1]? with
  | some lo, some hi => some (to_int16 ((lo : Int) + 256 * (hi : Int)))
  | _, _ => none

/-- Read element `i` of an `int16_t` array kept as bytes (0 outside it). -/
def int16_at (buf : List Nat) (i : Nat) : Int :=
  (int16_at? buf i).getD 0

/-- Assign `v` to element `i` of an `int16_t` array kept as bytes: the low
byte of its two's complement form first, then the high byte. -/
def int16_store (buf : List Nat) (i : Nat) (v : Int) : List Nat :=
  (buf.set (SIZEOF_INT16 * i) (to_uint16 v % 256)).set (SIZEOF_INT16 * i + 1) (to_uint16 v / 256)

/-- The seven elements of a history array. -/
def int16_slots (buf : List Nat) : List Int :=
  (List.range 7).map (int16_at buf)

/-- The call `memset(dst, c, n)`: the first `n` bytes become `c`. -/
def memset (dst : List Nat) (c : Nat) (n : Nat) : List Nat :=
  List.replicate n c ++ dst.drop n

/-- The call `memmove(dst, src, n)`: the first `n` bytes of `dst` become the first `n`
bytes `src` had before the call (`src` may overlap `dst`). -/
def memmove (dst src : List Nat) (n : Nat) : List Nat :=
  src.take n ++ dst.drop n

/-- The call `memcpy(dst, src, n)`, on regions that do not overlap. -/
def memcpy (dst src : List Nat) (n : Nat) : List Nat :=
  src.take n ++ dst.drop n

/-! ## lcd.c -/

def CHART_NUMBER_OF_POINTS : Nat := 7
def DISPLAY_INPUT_PERIOD_MS : Nat := 10
def DISPLAY_SCREEN_UPDATE_PERIOD_MS : Nat := 1000
def CHART_Y_PRIMARY_MIN : Int := -20
def CHART_Y_PRIMARY_MAX : Int := 100
def CHART_Y_SECONDARY_MIN : Int := 960
def CHART_Y_SECONDARY_MAX : Int := 1060
def PRESSURE_TO_Y_AXIS_DIVISION : ℚ := 100
def PRESSURE_TO_Y_AXIS_SUBTRACTION : ℚ := 980
/-- The size `sizeof(bt_addr_t)`. -/
def SIZEOF_BT_ADDR : Nat := 6

/-- The size `sizeof` of one history array. -/
def SIZEOF_CHART_DATA_BUFFER : Nat := CHART_NUMBER_OF_POINTS * SIZEOF_INT16

/-- The history array of a series. -/
def State.chart_data (s : State) : Series → List Nat
  | .temperature => s.chart_data_buffer_temperature
  | .humidity => s.chart_data_buffer_humidity
  | .pressure => s.chart_data_buffer_pressure
  | .dew_point => s.chart_data_buffer_dew_point

/-- The result of `lv_checkbox_is_checked` on the check box of a series. -/
def State.checked (s : State) : Series → Bool
  | .temperature => s.check_temperature
  | .humidity => s.check_humidity
  | .pressure => s.check_pressure
  | .dew_point => s.check_dew_point

/-- The `while (i < CHART_NUMBER_OF_POINTS)` loop of `checkbox_event_handler`:
the values passed to `lv_chart_set_next`, in order.  `none` when an array read
falls outside the array or the fuel runs out. -/
def replay_loop (chart_data : List Nat) : Nat → Nat → Option (List Int)
  | 0, _ => none
  | fuel + 1, i =>
    if i < CHART_NUMBER_OF_POINTS then
      match int16_at? chart_data i, replay_loop chart_data fuel (to_uint8 (i + 1)) with
      | some v, some rest => some (v :: rest)
      | _, _ => none
    else some []

/-- The function `update_lcd_text`: format the status line and show it. -/
def update_lcd_text (s : State) : State :=
  let s :=
    if s.remote_device_connected then
      { s with
        display_string_buffer := .connected s.remote_device_type s.remote_device_address }
    else
      { s with display_string_buffer := .advertising }
  s.call (.lv_label_set_text s.display_string_buffer)

/-- The handler `checkbox_event_handler`; `none` when the replay loop faults. -/
def checkbox_event_handler (obj : UiObject) (event : lv_event_t) (s : State) : Option State :=
  if event = .LV_EVENT_VALUE_CHANGED then
    let series : Option Series :=
      if obj = .ui_check_temperature then some .temperature
      else if obj = .ui_check_humidity then some .humidity
      else if obj = .ui_check_pressure then some .pressure
      else if obj = .ui_check_dew_point then some .dew_point
      else none
    match series with
    | some series =>
      if s.checked series then
        let i : Nat := to_uint8 ((CHART_NUMBER_OF_POINTS : Int) - (s.chart_readings : Int))
        match replay_loop (s.chart_data series) 256 i with
        | some values =>
          some ({ s with calls := s.calls ++ values.map (Call.lv_chart_set_next series) }.call
            .lv_chart_refresh)
        | none => none
      else
        some ((s.call (.lv_chart_clear_series series)).call .lv_chart_refresh)
    | none => some s
  else some s

/-- The handler `button_event_handler`; the object is not looked at. -/
def button_event_handler (_obj : UiObject) (event : lv_event_t) (s : State) : State :=
  if event = .LV_EVENT_CLICKED then
    let s := { s with
      chart_data_buffer_temperature :=
        memset s.chart_data_buffer_temperature 0 CHART_NUMBER_OF_POINTS }
    let s := { s with
      chart_data_buffer_humidity := memset s.chart_data_buffer_humidity 0 CHART_NUMBER_OF_POINTS }
    let s := { s with
      chart_data_buffer_pressure := memset s.chart_data_buffer_pressure 0 CHART_NUMBER_OF_POINTS }
    let s := { s with
      chart_data_buffer_dew_point :=
        memset s.chart_data_buffer_dew_point 0 CHART_NUMBER_OF_POINTS }
    let s := { s with chart_readings := 0 }
    let s := s.call (.lv_chart_clear_series .temperature)
    let s := s.call (.lv_chart_clear_series .humidity)
    let s := s.call (.lv_chart_clear_series .pressure)
    let s := s.call (.lv_chart_clear_series .dew_point)
    s.call .lv_chart_refresh
  else s

/-- The handler `ess_lcd_display_update_handler`, run on every 10 ms tick. -/
def ess_lcd_display_update_handler (s : State) : State :=
  let s := { s with display_update_count := to_uint16 ((s.display_update_count : Int) + 1) }
  let s :=
    if s.display_update_count ≥ DISPLAY_SCREEN_UPDATE_PERIOD_MS / DISPLAY_INPUT_PERIOD_MS then
      { update_lcd_text s with display_update_count := 0 }
    else s
  s.call .lv_task_handler

/-- The function `setup_lcd`; `display_dev` tells whether `device_get_binding` found the
display.  Widget construction and styling are left out; the check boxes are
created checked. -/
def setup_lcd (display_dev : Bool) (error : Bool) (error_string : Option ErrorString)
    (s : State) : State :=
  if display_dev = false then
    { s with lcd_present := false }
  else
    let s := { s with lcd_present := true }
    if error then
      let s := { s with display_string_buffer := .error error_string }
      let s := s.call (.lv_label_set_text s.display_string_buffer)
      let s := s.call .display_blanking_off
      s.call .lv_task_handler
    else
      let s := { s with
        chart_data_buffer_temperature :=
          memset s.chart_data_buffer_temperature 0 CHART_NUMBER_OF_POINTS }
      let s := { s with
        chart_data_buffer_humidity :=
          memset s.chart_data_buffer_humidity 0 CHART_NUMBER_OF_POINTS }
      let s := { s with
        chart_data_buffer_pressure :=
          memset s.chart_data_buffer_pressure 0 CHART_NUMBER_OF_POINTS }
      let s := { s with
        chart_data_buffer_dew_point :=
          memset s.chart_data_buffer_dew_point 0 CHART_NUMBER_OF_POINTS }
      let s := { s with
        check_temperature := true
        check_humidity := true
        check_pressure := true
        check_dew_point := true }
      let s := s.call (.lv_label_set_text s.display_string_buffer)
      let s := update_lcd_text s
      let s := s.call .display_blanking_off
      let s := s.call .lv_task_handler
      s.call (.k_timer_start .ess_lcd_display_update_timer DISPLAY_INPUT_PERIOD_MS
        DISPLAY_INPUT_PERIOD_MS)

/-- The function `is_lcd_present`. -/
def is_lcd_present (s : State) : Bool := s.lcd_present

/-- The function `update_lcd_graph`, statement by statement. -/
def update_lcd_graph (temperature humidity pressure dew_point : ℚ) (s : State) : State :=
  let s := { s with
    chart_data_buffer_temperature :=
      memmove s.chart_data_buffer_temperature
        (s.chart_data_buffer_temperature.drop (1 * SIZEOF_INT16))
        (SIZEOF_CHART_DATA_BUFFER - SIZEOF_INT16) }
  let s := { s with
    chart_data_buffer_humidity :=
      memmove s.chart_data_buffer_humidity
        (s.chart_data_buffer_temperature.drop (1 * SIZEOF_INT16))
        (SIZEOF_CHART_DATA_BUFFER - SIZEOF_INT16) }
  let s := { s with
    chart_data_buffer_pressure :=
      memmove s.chart_data_buffer_pressure
        (s.chart_data_buffer_temperature.drop (1 * SIZEOF_INT16))
        (SIZEOF_CHART_DATA_BUFFER - SIZEOF_INT16) }
  let s := { s with
    chart_data_buffer_dew_point :=
      memmove s.chart_data_buffer_dew_point
        (s.chart_data_buffer_temperature.drop (1 * SIZEOF_INT16))
        (SIZEOF_CHART_DATA_BUFFER - SIZEOF_INT16) }
  let s := { s with
    chart_data_buffer_temperature :=
      int16_store s.chart_data_buffer_temperature (CHART_NUMBER_OF_POINTS - 1)
        (float_to_int temperature) }
  let s := { s with
    chart_data_buffer_humidity :=
      int16_store s.chart_data_buffer_humidity (CHART_NUMBER_OF_POINTS - 1)
        (float_to_int humidity) }
  let s := { s with
    chart_data_buffer_pressure :=
      int16_store s.chart_data_buffer_pressure (CHART_NUMBER_OF_POINTS - 1)
        (float_to_int (pressure / PRESSURE_TO_Y_AXIS_DIVISION - PRESSURE_TO_Y_AXIS_SUBTRACTION)) }
  let s := { s with
    chart_data_buffer_dew_point :=
      int16_store s.chart_data_buffer_dew_point (CHART_NUMBER_OF_POINTS - 1)
        (float_to_int dew_point) }
  let s :=
    if s.chart_readings < CHART_NUMBER_OF_POINTS then
      { s with chart_readings := to_uint8 ((s.chart_readings : Int) + 1) }
    else s
  let s :=
    if s.check_temperature then
      s.call (.lv_chart_set_next .temperature
        (int16_at s.chart_data_buffer_temperature (CHART_NUMBER_OF_POINTS - 1)))
    else s
  let s :=
    if s.check_humidity then
      s.call (.lv_chart_set_next .humidity
        (int16_at s.chart_data_buffer_humidity (CHART_NUMBER_OF_POINTS - 1)))
    else s
  let s :=
    if s.check_pressure then
      s.call (.lv_chart_set_next .pressure
        (int16_at s.chart_data_buffer_pressure (CHART_NUMBER_OF_POINTS - 1)))
    else s
  if s.check_dew_point then
    s.call (.lv_chart_set_next .dew_point
      (int16_at s.chart_data_buffer_dew_point (CHART_NUMBER_OF_POINTS - 1)))
  else s

/-- The function `update_lcd_connected_address`; `address` is the bytes the pointer refers
to (`[]` for `NULL`). -/
def update_lcd_connected_address (connected : Bool) (type : Nat) (address : List Nat)
    (s : State) : State :=
  let s := { s with remote_device_connected := connected }
  let s :=
    if connected = true then
      { s with
        remote_device_type := type
        remote_device_address := memcpy s.remote_device_address address SIZEOF_BT_ADDR }
    else s
  update_lcd_text s

/-! ## main.c -/

def ESS_SERVICE_START_TIMER_S : Nat := 2
def ESS_SERVICE_UPDATE_TIMER_S : Nat := 10

/-- The macro `K_SECONDS`, in milliseconds. -/
def K_SECONDS (n : Nat) : Nat := n * 1000

/-- The handler `ess_svc_update_handler`; `CONFIG_DISPLAY` is the build option, `drv` what
the sensor driver returns to the `read_sensor` call of this cycle. -/
noncomputable def ess_svc_update_handler (CONFIG_DISPLAY : Bool) (drv : SensorReading)
    (s : State) : State :=
  let s := read_sensor drv s
  let temperature : ℚ := read_temperature_float s
  let humidity : ℚ := read_humidity_float s
  let dew_point : Int := calculate_dew_point (temperature : ℝ) (humidity : ℝ)
  let s := s.call (.ess_svc_update_temperature (read_temperature s))
  let s := s.call (.ess_svc_update_humidity (read_humidity s))
  let s := s.call (.ess_svc_update_pressure (read_pressure s))
  let s := s.call (.ess_svc_update_dew_point dew_point)
  if CONFIG_DISPLAY then
    let pressure : ℚ := read_pressure_float s
    update_lcd_graph temperature humidity pressure (dew_point : ℚ) s
  else s

/-- The `connected` callback: `type`/`address` are the peer's address from
`bt_conn_get_info`. -/
noncomputable def connected (CONFIG_DISPLAY : Bool) (type : Nat) (address : List Nat)
    (drv : SensorReading) (s : State) : State :=
  if CONFIG_DISPLAY then
    update_lcd_connected_address true type address s
  else
    let s := s.call (.k_timer_start .ess_svc_update_timer
      (K_SECONDS ESS_SERVICE_UPDATE_TIMER_S) (K_SECONDS ESS_SERVICE_UPDATE_TIMER_S))
    ess_svc_update_handler CONFIG_DISPLAY drv s

/-- The `disconnected` callback. -/
def disconnected (CONFIG_DISPLAY : Bool) (s : State) : State :=
  if CONFIG_DISPLAY then
    update_lcd_connected_address false 0 [] s
  else
    s.call (.k_timer_stop .ess_svc_update_timer)

/-- The function `bt_ready`; a failure to start advertising is only logged. -/
def bt_ready (s : State) : State :=
  s.call .bt_le_adv_start

/-- What `main` finds on the board: the build options, whether each
`device_get_binding` succeeds, the return value of `bt_enable`, and what the
sensor driver returns to the `read_sensor` call at the end of `main`. -/
structure Board where
  CONFIG_DISPLAY : Bool
  CONFIG_LCZ_BLE_DIS : Bool
  sensor_dev : Bool
  display_dev : Bool
  bt_enable_err : Int
  drv : SensorReading
deriving DecidableEq, Repr

/-- The function `main`. -/
def main (b : Board) (s : State) : State :=
  let s := setup_sensor b.sensor_dev s
  if !is_sensor_present s then
    if b.CONFIG_DISPLAY then
      setup_lcd b.display_dev true (some .sensor_not_detected) s
    else s
  else
    let s := s.call .bt_enable
    if b.bt_enable_err ≠ 0 then
      if b.CONFIG_DISPLAY then
        setup_lcd b.display_dev true (some .bluetooth_init_failed) s
      else s
    else
      let s := bt_ready s
      let s := s.call .bt_conn_cb_register
      let s := if b.CONFIG_LCZ_BLE_DIS then s.call .dis_init else s
      let s := s.call .ess_svc_init
      if b.CONFIG_DISPLAY then
        let s := setup_lcd b.display_dev false none s
        let s := s.call (.k_timer_start .ess_svc_update_timer
          (K_SECONDS ESS_SERVICE_START_TIMER_S) (K_SECONDS ESS_SERVICE_UPDATE_TIMER_S))
        read_sensor b.drv s
      else s


/-! ## Classifying platform calls -/

/-- A telemetry dispatch: one of the four `ess_svc_update_*` calls. -/
def Call.is_ess_svc_update : Call → Bool
  | .ess_svc_update_temperature _ => true
  | .ess_svc_update_humidity _ => true
  | .ess_svc_update_pressure _ => true
  | .ess_svc_update_dew_point _ => true
  | _ => false

/-- A `k_timer_start` call, on either timer. -/
def Call.is_k_timer_start : Call → Bool
  | .k_timer_start _ _ _ => true
  | _ => false

/-! ## Sequences of display operations -/

/-- The check box object of a series. -/
def Series.check_box : Series → UiObject
  | .temperature => .ui_check_temperature
  | .humidity => .ui_check_humidity
  | .pressure => .ui_check_pressure
  | .dew_point => .ui_check_dew_point

/-- The two operations on the history: a push (`update_lcd_graph`) and a clear
(a click on the clear button). -/
inductive LcdOp where
  | push (temperature humidity pressure dew_point : ℚ)
  | clear
deriving DecidableEq

/-- Run one history operation. -/
def LcdOp.run : LcdOp → State → State
  | .push temperature humidity pressure dew_point =>
    update_lcd_graph temperature humidity pressure dew_point
  | .clear => button_event_handler .ui_button_clear .LV_EVENT_CLICKED

/-- Run history operations in order. -/
def run_ops (ops : List LcdOp) (s : State) : State :=
  ops.foldl (fun s op => op.run s) s

/-- Number of pushes after the last clear, counting on from `n`. -/
def pushes_since_clear (n : Nat) (ops : List LcdOp) : Nat :=
  ops.foldl (fun n op => match op with
    | .push _ _ _ _ => n + 1
    | .clear => 0) n

/-! ## Sequences of fast ticks -/

/-- Run `ess_lcd_display_update_handler` `n` times. -/
def fast_ticks : Nat → State → State
  | 0, s => s
  | n + 1, s => ess_lcd_display_update_handler (fast_ticks n s)

/-- The status line `update_lcd_text` writes in state `s`. -/
def State.status_text (s : State) : StatusText :=
  if s.remote_device_connected then
    .connected s.remote_device_type s.remote_device_address
  else .advertising

/-! ## Sample states -/

/-- Eight pushes with pairwise distinct values of every quantity:
temperatures 10..17 °C, humidities 40..47 %, pressures 100000..100700 Pa (charted
as 20..27), dew points 1..8 °C. -/
def sample_pushes : List LcdOp :=
  [.push 10 40 100000 1, .push 11 41 100100 2, .push 12 42 100200 3, .push 13 43 100300 4,
   .push 14 44 100400 5, .push 15 45 100500 6, .push 16 46 100600 7, .push 17 47 100700 8]

/-- A working display (check boxes ticked by `setup_lcd`) after the first three
pushes of `sample_pushes`. -/
def sample_display : State :=
  run_ops (sample_pushes.take 3) (setup_lcd true false none State.init)

/-- A driver reading: 23.45 °C, 101.325 kPa, 41.5 %RH. -/
def sample_drv : SensorReading :=
  ⟨⟨23, 450000⟩, ⟨101, 325000⟩, ⟨41, 500000⟩⟩

/-- A display build on a board whose sensor does not bind. -/
def sample_board_no_sensor : Board where
  CONFIG_DISPLAY := true
  CONFIG_LCZ_BLE_DIS := true
  sensor_dev := false
  display_dev := true
  bt_enable_err := 0
  drv := sample_drv

/-- Both the temperature and the humidity channel hold `val1 = 23`,
`val2 = 450000`. -/
def sample_23_45 : State :=
  { State.init with temperature_value := ⟨23, 450000⟩, humidity_value := ⟨23, 450000⟩ }

/-- A plausible cached sample: 23.45 °C, 41.5 %RH, 101.325 kPa. -/
def sample_reading : State :=
  { State.init with
    sensor_present := true
    temperature_value := ⟨23, 450000⟩
    humidity_value := ⟨41, 500000⟩
    pressure_value := ⟨101, 325000⟩ }

/-- The temperature channel holds `val1 = 1`, `val2 = -5000`. -/
def sample_opposite_sign : State :=
  { State.init with temperature_value := ⟨1, -5000⟩ }

/-- A peer of address type 1 and address bytes 1..6 has connected to the start
state. -/
def sample_connected : State :=
  update_lcd_connected_address true 1 [1, 2, 3, 4, 5, 6] State.init

/-! ## Helper lemmas -/

theorem to_int16_of_fits (x : Int) (h : -32768 ≤ x ∧ x ≤ 32767) : to_int16 x = x := by
  unfold to_int16; omega

theorem to_int32_of_fits (x : Int) (h : -2147483648 ≤ x ∧ x ≤ 2147483647) : to_int32 x = x := by
  unfold to_int32; omega

theorem to_int16_sum (a b : Int) (h : -32768 ≤ a + b ∧ a + b ≤ 32767) :
    to_int16 (to_int32 (to_int32 a + b)) = a + b := by
  unfold to_int16 to_int32; omega

theorem to_int32_sum (a b : Int) (h : -2147483648 ≤ a + b ∧ a + b ≤ 2147483647) :
    to_int32 (to_int32 a + b) = a + b := by
  unfold to_int32; omega

theorem tdiv_of_nonneg (a b : Int) (ha : 0 ≤ a) (hb : 0 < b) : Int.tdiv a b = a / b :=
  Int.tdiv_eq_ediv ha (le_of_lt hb)

theorem tdiv_of_nonpos (a b : Int) (ha : a ≤ 0) (hb : 0 < b) : Int.tdiv a b = -((-a) / b) := by
  have h := Int.neg_tdiv (-a) b
  rw [Int.neg_neg] at h
  rw [h, Int.tdiv_eq_ediv (by omega) (le_of_lt hb)]

theorem float_to_int_intCast_div (a b : Int) (hb : 0 < b) :
    float_to_int ((a : ℚ) / (b : ℚ)) = Int.tdiv a b := by
  have hbq : (0 : ℚ) < (b : ℚ) := by exact_mod_cast hb
  obtain ⟨n, rfl⟩ : ∃ n : ℕ, b = (n : Int) := ⟨b.toNat, by omega⟩
  unfold float_to_int
  by_cases ha : 0 ≤ a
  · have : (0 : ℚ) ≤ (a : ℚ) / ((n : Int) : ℚ) := div_nonneg (by exact_mod_cast ha) hbq.le
    rw [if_pos this, tdiv_of_nonneg a _ ha hb]
    exact_mod_cast Rat.floor_intCast_div_natCast a n
  · have ha' : a < 0 := by omega
    have : ¬ (0 : ℚ) ≤ (a : ℚ) / ((n : Int) : ℚ) := by
      rw [not_le]; exact div_neg_of_neg_of_pos (by exact_mod_cast ha') hbq
    rw [if_neg this, tdiv_of_nonpos a _ ha'.le hb]
    have h1 : ⌈(a : ℚ) / ((n : Int) : ℚ)⌉ = -⌊((-a : Int) : ℚ) / (n : ℚ)⌋ := by
      rw [← Int.ceil_neg]; congr 1; push_cast; ring
    rw [h1, Rat.floor_intCast_div_natCast]

theorem abs_float_to_int_sub_lt (x : ℚ) : |((float_to_int x : Int) : ℚ) - x| < 1 := by
  unfold float_to_int
  rw [abs_lt]
  split
  · have h1 := Int.floor_le x
    have h2 := Int.lt_floor_add_one x
    constructor <;> linarith
  · have h1 := Int.le_ceil x
    have h2 := Int.ceil_lt_add_one x
    constructor <;> linarith

theorem abs_tdiv_sub_lt (a b : Int) (hb : 0 < b) :
    |((Int.tdiv a b : Int) : ℚ) - (a : ℚ) / (b : ℚ)| < 1 := by
  rw [← float_to_int_intCast_div a b hb]
  exact abs_float_to_int_sub_lt _


/-! ## sensor.c: integer accessors -/

theorem read_temperature_eq (s : State)
    (h : -32768 ≤ s.temperature_value.val1 * 100 + Int.tdiv s.temperature_value.val2 10000 ∧
      s.temperature_value.val1 * 100 + Int.tdiv s.temperature_value.val2 10000 ≤ 32767) :
    read_temperature s =
      s.temperature_value.val1 * 100 + Int.tdiv s.temperature_value.val2 10000 := by
  unfold read_temperature TEMPERATURE_VAL1_MULTIPLIER TEMPERATURE_VAL2_DIVIDER
  exact to_int16_sum _ _ h

theorem read_humidity_eq (s : State)
    (h : -32768 ≤ s.humidity_value.val1 * 100 + Int.tdiv s.humidity_value.val2 10000 ∧
      s.humidity_value.val1 * 100 + Int.tdiv s.humidity_value.val2 10000 ≤ 32767) :
    read_humidity s = s.humidity_value.val1 * 100 + Int.tdiv s.humidity_value.val2 10000 := by
  unfold read_humidity HUMIDITY_VAL1_MULTIPLIER HUMIDITY_VAL2_DIVIDER
  exact to_int16_sum _ _ h

theorem read_pressure_eq (s : State)
    (h : -2147483648 ≤ s.pressure_value.val1 * 10000 + Int.tdiv s.pressure_value.val2 100 ∧
      s.pressure_value.val1 * 10000 + Int.tdiv s.pressure_value.val2 100 ≤ 2147483647) :
    read_pressure s = s.pressure_value.val1 * 10000 + Int.tdiv s.pressure_value.val2 100 := by
  unfold read_pressure PRESSURE_VAL1_MULTIPLIER PRESSURE_VAL2_DIVIDER
  exact to_int32_sum _ _ h

/-- For raw values that are not of opposite sign, the term-wise C expression
`val1 * 100 + val2 / 10000` is the truncation of the exact sum. -/
theorem scaled_sum_eq_float_to_int (v1 v2 : Int)
    (hs : ¬ (v1 < 0 ∧ 0 < v2) ∧ ¬ (0 < v1 ∧ v2 < 0)) :
    v1 * 100 + Int.tdiv v2 10000 = float_to_int ((v1 : ℚ) * 100 + (v2 : ℚ) / 10000) := by
  have e : (v1 : ℚ) * 100 + (v2 : ℚ) / 10000
      = ((v1 * 1000000 + v2 : Int) : ℚ) / ((10000 : Int) : ℚ) := by
    push_cast; ring
  rw [e, float_to_int_intCast_div _ _ (by norm_num)]
  by_cases h2 : 0 ≤ v2
  · by_cases h1 : 0 ≤ v1
    · rw [tdiv_of_nonneg v2 _ h2 (by norm_num), tdiv_of_nonneg _ _ (by omega) (by norm_num)]
      omega
    · have : v2 = 0 := by omega
      subst this
      rw [tdiv_of_nonneg 0 _ (le_refl _) (by norm_num),
        tdiv_of_nonpos _ _ (by omega) (by norm_num)]
      omega
  · by_cases h1 : v1 ≤ 0
    · rw [tdiv_of_nonpos v2 _ (by omega) (by norm_num),
        tdiv_of_nonpos _ _ (by omega) (by norm_num)]
      omega
    · omega

/-- C3 (as amended): whenever the result fits in `int16_t`, `read_temperature`
returns `val1 * 100` plus `val2 / 10000` truncated toward zero on its own; when
`val1` and `val2` are not of opposite sign this is the truncation toward zero of
the exact quantity `val1 * 100 + val2 / 10000`.  The same holds for
`read_humidity`. -/
theorem read_temperature_humidity_truncate (s : State) :
    ((-32768 ≤ s.temperature_value.val1 * 100 + Int.tdiv s.temperature_value.val2 10000 ∧
        s.temperature_value.val1 * 100 + Int.tdiv s.temperature_value.val2 10000 ≤ 32767) →
      read_temperature s =
          s.temperature_value.val1 * 100 +
            float_to_int ((s.temperature_value.val2 : ℚ) / 10000) ∧
        (¬ (s.temperature_value.val1 < 0 ∧ 0 < s.temperature_value.val2) ∧
            ¬ (0 < s.temperature_value.val1 ∧ s.temperature_value.val2 < 0) →
          read_temperature s =
            float_to_int ((s.temperature_value.val1 : ℚ) * 100 +
              (s.temperature_value.val2 : ℚ) / 10000))) ∧
    ((-32768 ≤ s.humidity_value.val1 * 100 + Int.tdiv s.humidity_value.val2 10000 ∧
        s.humidity_value.val1 * 100 + Int.tdiv s.humidity_value.val2 10000 ≤ 32767) →
      read_humidity s =
          s.humidity_value.val1 * 100 + float_to_int ((s.humidity_value.val2 : ℚ) / 10000) ∧
        (¬ (s.humidity_value.val1 < 0 ∧ 0 < s.humidity_value.val2) ∧
            ¬ (0 < s.humidity_value.val1 ∧ s.humidity_value.val2 < 0) →
          read_humidity s =
            float_to_int ((s.humidity_value.val1 : ℚ) * 100 +
              (s.humidity_value.val2 : ℚ) / 10000))) := by
  have k : ∀ v : Int, float_to_int ((v : ℚ) / 10000) = Int.tdiv v 10000 := fun v => by
    have := float_to_int_intCast_div v 10000 (by norm_num)
    simpa using this
  refine ⟨fun h => ⟨?_, fun hs => ?_⟩, fun h => ⟨?_, fun hs => ?_⟩⟩
  · rw [read_temperature_eq s h, k]
  · rw [read_temperature_eq s h, scaled_sum_eq_float_to_int _ _ hs]
  · rw [read_humidity_eq s h, k]
  · rw [read_humidity_eq s h, scaled_sum_eq_float_to_int _ _ hs]

/-- C3, worked example: with `val1 = 23`, `val2 = 450000` in both the
temperature and the humidity channel, both accessors return 2345, the
truncation of the exact `23 * 100 + 450000 / 10000 = 2345`. -/
theorem read_temperature_humidity_truncate_witness :
    read_temperature sample_23_45 = 2345 ∧ read_humidity sample_23_45 = 2345 ∧
    float_to_int (((23 : Int) : ℚ) * 100 + ((450000 : Int) : ℚ) / 10000) = 2345 := by
  have h := read_temperature_humidity_truncate sample_23_45
  have hT := (h.1 (by decide)).2 (by decide)
  have e : read_temperature sample_23_45 = 2345 := by decide
  refine ⟨e, by decide, ?_⟩
  rw [← e]; exact hT.symm

/-- C3, as stated, fails for raw values of opposite sign: with `val1 = 1`,
`val2 = -5000` the code returns `1 * 100 + (-5000 / 10000) = 100`, while the
exact quantity `100 - 0.5 = 99.5` truncates to 99. -/
theorem read_temperature_opposite_sign :
    read_temperature sample_opposite_sign = 100 ∧
    float_to_int (((1 : Int) : ℚ) * 100 + ((-5000 : Int) : ℚ) / 10000) = 99 ∧
    read_temperature sample_opposite_sign ≠
      float_to_int ((sample_opposite_sign.temperature_value.val1 : ℚ) * 100 +
        (sample_opposite_sign.temperature_value.val2 : ℚ) / 10000) := by
  have e1 : read_temperature sample_opposite_sign = 100 := by decide
  have e2 : float_to_int (((1 : Int) : ℚ) * 100 + ((-5000 : Int) : ℚ) / 10000) = 99 := by
    norm_num [float_to_int, Int.floor_eq_iff]
  refine ⟨e1, e2, ?_⟩
  have e3 : sample_opposite_sign.temperature_value.val1 = 1 := rfl
  have e4 : sample_opposite_sign.temperature_value.val2 = -5000 := rfl
  rw [e1, e3, e4, e2]; decide

/-- C5: whenever the integer accessor does not overflow, the integer reading
differs from the scaled exact float reading by less than one unit:
temperature and humidity against 100 times the float, pressure against 10 times
the float. -/
theorem sensor_integer_float_consistent (s : State) :
    ((-32768 ≤ s.temperature_value.val1 * 100 + Int.tdiv s.temperature_value.val2 10000 ∧
        s.temperature_value.val1 * 100 + Int.tdiv s.temperature_value.val2 10000 ≤ 32767) →
      |((read_temperature s : Int) : ℚ) - 100 * read_temperature_float s| < 1) ∧
    ((-32768 ≤ s.humidity_value.val1 * 100 + Int.tdiv s.humidity_value.val2 10000 ∧
        s.humidity_value.val1 * 100 + Int.tdiv s.humidity_value.val2 10000 ≤ 32767) →
      |((read_humidity s : Int) : ℚ) - 100 * read_humidity_float s| < 1) ∧
    ((-2147483648 ≤ s.pressure_value.val1 * 10000 + Int.tdiv s.pressure_value.val2 100 ∧
        s.pressure_value.val1 * 10000 + Int.tdiv s.pressure_value.val2 100 ≤ 2147483647) →
      |((read_pressure s : Int) : ℚ) - 10 * read_pressure_float s| < 1) := by
  refine ⟨fun h => ?_, fun h => ?_, fun h => ?_⟩
  · rw [read_temperature_eq s h]
    have k := abs_tdiv_sub_lt s.temperature_value.val2 10000 (by norm_num)
    have e : ((s.temperature_value.val1 * 100 + Int.tdiv s.temperature_value.val2 10000 : Int) : ℚ)
        - 100 * read_temperature_float s
        = ((Int.tdiv s.temperature_value.val2 10000 : Int) : ℚ)
          - (s.temperature_value.val2 : ℚ) / ((10000 : Int) : ℚ) := by
      unfold read_temperature_float FLOAT_TEMPERATURE_DIVIDER
      push_cast; ring
    rw [e]; exact k
  · rw [read_humidity_eq s h]
    have k := abs_tdiv_sub_lt s.humidity_value.val2 10000 (by norm_num)
    have e : ((s.humidity_value.val1 * 100 + Int.tdiv s.humidity_value.val2 10000 : Int) : ℚ)
        - 100 * read_humidity_float s
        = ((Int.tdiv s.humidity_value.val2 10000 : Int) : ℚ)
          - (s.humidity_value.val2 : ℚ) / ((10000 : Int) : ℚ) := by
      unfold read_humidity_float FLOAT_HUMIDITY_DIVIDER
      push_cast; ring
    rw [e]; exact k
  · rw [read_pressure_eq s h]
    have k := abs_tdiv_sub_lt s.pressure_value.val2 100 (by norm_num)
    have e : ((s.pressure_value.val1 * 10000 + Int.tdiv s.pressure_value.val2 100 : Int) : ℚ)
        - 10 * read_pressure_float s
        = ((Int.tdiv s.pressure_value.val2 100 : Int) : ℚ)
          - (s.pressure_value.val2 : ℚ) / ((100 : Int) : ℚ) := by
      unfold read_pressure_float FLOAT_PRESSURE_DIVIDER FLOAT_PRESSURE_MULTIPLIER
      push_cast; ring
    rw [e]; exact k

/-- C5, at the sample 23.45 °C, 41.5 %RH, 101.325 kPa: no accessor overflows
and each integer reading is within one unit of the scaled float reading. -/
theorem sensor_integer_float_consistent_witness :
    |((read_temperature sample_reading : Int) : ℚ) - 100 * read_temperature_float sample_reading|
        < 1 ∧
    |((read_humidity sample_reading : Int) : ℚ) - 100 * read_humidity_float sample_reading| < 1 ∧
    |((read_pressure sample_reading : Int) : ℚ) - 10 * read_pressure_float sample_reading| < 1 :=
  ⟨(sensor_integer_float_consistent sample_reading).1 (by decide),
   (sensor_integer_float_consistent sample_reading).2.1 (by decide),
   (sensor_integer_float_consistent sample_reading).2.2 (by decide)⟩

/-! ## sensor.c: absent sensor -/

theorem read_sensor_of_absent (drv : SensorReading) (s : State) (h : s.sensor_present = false) :
    read_sensor drv s = s := by
  simp [read_sensor, h]

theorem foldl_read_sensor_of_absent (drvs : List SensorReading) (s : State)
    (h : s.sensor_present = false) :
    drvs.foldl (fun s drv => read_sensor drv s) s = s := by
  induction drvs with
  | nil => rfl
  | cons drv rest ih => rw [List.foldl_cons, read_sensor_of_absent drv s h, ih]

/-- C10: when `device_get_binding` returns `NULL`, `setup_sensor` leaves the
sensor absent; every later `read_sensor` leaves the state unchanged, whatever
the driver would return, and after any number of them the three integer
accessors return 0 and the three float accessors write 0. -/
theorem absent_sensor_reads_zero (s0 : State) (drvs : List SensorReading) :
    is_sensor_present (setup_sensor false s0) = false ∧
    (∀ (drv : SensorReading) (s : State), is_sensor_present s = false → read_sensor drv s = s) ∧
    drvs.foldl (fun s drv => read_sensor drv s) (setup_sensor false s0) = setup_sensor false s0 ∧
    read_temperature (drvs.foldl (fun s drv => read_sensor drv s) (setup_sensor false s0)) = 0 ∧
    read_humidity (drvs.foldl (fun s drv => read_sensor drv s) (setup_sensor false s0)) = 0 ∧
    read_pressure (drvs.foldl (fun s drv => read_sensor drv s) (setup_sensor false s0)) = 0 ∧
    read_temperature_float
      (drvs.foldl (fun s drv => read_sensor drv s) (setup_sensor false s0)) = 0 ∧
    read_humidity_float (drvs.foldl (fun s drv => read_sensor drv s) (setup_sensor false s0)) = 0 ∧
    read_pressure_float
      (drvs.foldl (fun s drv => read_sensor drv s) (setup_sensor false s0)) = 0 := by
  have hp : (setup_sensor false s0).sensor_present = false := by simp [setup_sensor]
  rw [foldl_read_sensor_of_absent drvs _ hp]
  refine ⟨hp, fun drv s h => read_sensor_of_absent drv s h, rfl, ?_, ?_, ?_, ?_, ?_, ?_⟩
  · simp [read_temperature, setup_sensor, to_int16, to_int32]
  · simp [read_humidity, setup_sensor, to_int16, to_int32]
  · simp [read_pressure, setup_sensor, to_int32]
  · simp [read_temperature_float, setup_sensor]
  · simp [read_humidity_float, setup_sensor]
  · simp [read_pressure_float, setup_sensor]


/-- C10, from the start state with two driver readings offered: the sensor
stays absent and the cached sample stays zero. -/
theorem absent_sensor_reads_zero_witness :
    is_sensor_present (setup_sensor false State.init) = false ∧
    read_temperature ([sample_drv, sample_drv].foldl
      (fun s drv => read_sensor drv s) (setup_sensor false State.init)) = 0 ∧
    read_pressure ([sample_drv, sample_drv].foldl
      (fun s drv => read_sensor drv s) (setup_sensor false State.init)) = 0 :=
  ⟨(absent_sensor_reads_zero State.init
      [sample_drv, sample_drv]).1,
   (absent_sensor_reads_zero State.init
      [sample_drv, sample_drv]).2.2.2.1,
   (absent_sensor_reads_zero State.init
      [sample_drv, sample_drv]).2.2.2.2.2.1⟩

/-! ## dewpoint.c: reference vectors -/

theorem lt_logb_ten (x : ℝ) (a b : ℕ) (hb : 0 < b)
    (h : (10 : ℝ) ^ a < x ^ b) : (a : ℝ) / (b : ℝ) < Real.logb 10 x := by
  have h10 : (0 : ℝ) < Real.log 10 := Real.log_pos (by norm_num)
  have hbR : (0 : ℝ) < (b : ℝ) := by exact_mod_cast hb
  have hl : Real.log ((10 : ℝ) ^ a) < Real.log (x ^ b) :=
    Real.log_lt_log (by positivity) h
  rw [Real.log_pow, Real.log_pow] at hl
  unfold Real.logb
  rw [div_lt_div_iff₀ hbR h10]
  linarith

theorem logb_ten_lt (x : ℝ) (hx : 0 < x) (a b : ℕ) (hb : 0 < b)
    (h : x ^ b < (10 : ℝ) ^ a) : Real.logb 10 x < (a : ℝ) / (b : ℝ) := by
  have h10 : (0 : ℝ) < Real.log 10 := Real.log_pos (by norm_num)
  have hbR : (0 : ℝ) < (b : ℝ) := by exact_mod_cast hb
  have hl : Real.log (x ^ b) < Real.log ((10 : ℝ) ^ a) :=
    Real.log_lt_log (by positivity) h
  rw [Real.log_pow, Real.log_pow] at hl
  unfold Real.logb
  rw [div_lt_div_iff₀ h10 hbR]
  linarith

theorem float_to_int_eq_of_nonneg (x : ℝ) (n : Int) (h0 : 0 ≤ x) (h1 : (n : ℝ) ≤ x)
    (h2 : x < (n : ℝ) + 1) : float_to_int x = n := by
  unfold float_to_int
  rw [if_pos h0, Int.floor_eq_iff]
  exact ⟨h1, h2⟩

theorem dew_point_hTmp_25_50 :
    13 ≤ dew_point_hTmp 25 50 ∧ dew_point_hTmp 25 50 < 14 := by
  have l1 : ((42 : ℕ) : ℝ) / ((25 : ℕ) : ℝ) < Real.logb 10 50 :=
    lt_logb_ten 50 42 25 (by norm_num) (by norm_num)
  have l2 : Real.logb 10 50 < ((17 : ℕ) : ℝ) / ((10 : ℕ) : ℝ) :=
    logb_ten_lt 50 (by norm_num) 17 10 (by norm_num) (by norm_num)
  unfold dew_point_hTmp
  generalize Real.logb 10 50 = L at l1 l2
  simp only []
  have hpos : 0 < 17.62 - ((L - 2) / 0.4343 + 17.62 * 25 / (243.12 + 25)) := by
    norm_num at l1 l2 ⊢
    linarith
  constructor
  · rw [le_div_iff₀ hpos]
    norm_num at l1 l2 ⊢
    linarith
  · rw [div_lt_iff₀ hpos]
    norm_num at l1 l2 ⊢
    linarith

theorem dew_point_hTmp_20_90 :
    18 ≤ dew_point_hTmp 20 90 ∧ dew_point_hTmp 20 90 < 19 := by
  have l1 : ((39 : ℕ) : ℝ) / ((20 : ℕ) : ℝ) < Real.logb 10 90 :=
    lt_logb_ten 90 39 20 (by norm_num) (by norm_num)
  have l2 : Real.logb 10 90 < ((49 : ℕ) : ℝ) / ((25 : ℕ) : ℝ) :=
    logb_ten_lt 90 (by norm_num) 49 25 (by norm_num) (by norm_num)
  unfold dew_point_hTmp
  generalize Real.logb 10 90 = L at l1 l2
  simp only []
  have hpos : 0 < 17.62 - ((L - 2) / 0.4343 + 17.62 * 20 / (243.12 + 20)) := by
    norm_num at l1 l2 ⊢
    linarith
  constructor
  · rw [le_div_iff₀ hpos]
    norm_num at l1 l2 ⊢
    linarith
  · rw [div_lt_iff₀ hpos]
    norm_num at l1 l2 ⊢
    linarith

theorem dew_point_hTmp_0_100 : dew_point_hTmp 0 100 = 0 := by
  have l : Real.logb 10 100 = 2 := by
    have e : (100 : ℝ) = (10 : ℝ) ^ (2 : ℕ) := by norm_num
    rw [e, Real.logb_pow]
    rw [Real.logb_self_eq_one (by norm_num)]
    norm_num
  unfold dew_point_hTmp
  simp [l]

/-- C4: with the formula evaluated in exact real arithmetic and the result
truncated toward zero, `calculate_dew_point(25.0, 50.0) = 13`,
`calculate_dew_point(20.0, 90.0) = 18` and `calculate_dew_point(0.0, 100.0) = 0`. -/
theorem calculate_dew_point_reference_vectors :
    calculate_dew_point 25 50 = 13 ∧ calculate_dew_point 20 90 = 18 ∧
      calculate_dew_point 0 100 = 0 := by
  refine ⟨?_, ?_, ?_⟩
  · have h := dew_point_hTmp_25_50
    unfold calculate_dew_point
    rw [float_to_int_eq_of_nonneg _ 13 (by linarith [h.1]) (by exact_mod_cast h.1)
      (by have := h.2; norm_num at this ⊢; linarith)]
    decide
  · have h := dew_point_hTmp_20_90
    unfold calculate_dew_point
    rw [float_to_int_eq_of_nonneg _ 18 (by linarith [h.1]) (by exact_mod_cast h.1)
      (by have := h.2; norm_num at this ⊢; linarith)]
    decide
  · unfold calculate_dew_point
    rw [dew_point_hTmp_0_100]
    simp [float_to_int, to_int8]

/-! ## lcd.c: history buffers -/

/-- The four shifted-and-appended history arrays after `update_lcd_graph`. -/
theorem update_lcd_graph_eq (temperature humidity pressure dew_point : ℚ) (s : State) :
    update_lcd_graph temperature humidity pressure dew_point s =
      { s with
        chart_data_buffer_temperature :=
          int16_store
            (memmove s.chart_data_buffer_temperature (s.chart_data_buffer_temperature.drop 2) 12)
            6 (float_to_int temperature)
        chart_data_buffer_humidity :=
          int16_store
            (memmove s.chart_data_buffer_humidity
              ((memmove s.chart_data_buffer_temperature
                (s.chart_data_buffer_temperature.drop 2) 12).drop 2) 12)
            6 (float_to_int humidity)
        chart_data_buffer_pressure :=
          int16_store
            (memmove s.chart_data_buffer_pressure
              ((memmove s.chart_data_buffer_temperature
                (s.chart_data_buffer_temperature.drop 2) 12).drop 2) 12)
            6 (float_to_int (pressure / 100 - 980))
        chart_data_buffer_dew_point :=
          int16_store
            (memmove s.chart_data_buffer_dew_point
              ((memmove s.chart_data_buffer_temperature
                (s.chart_data_buffer_temperature.drop 2) 12).drop 2) 12)
            6 (float_to_int dew_point)
        chart_readings := if s.chart_readings < 7 then s.chart_readings + 1 else s.chart_readings
        calls :=
          s.calls ++
            (if s.check_temperature then
              [Call.lv_chart_set_next .temperature
                (int16_at (int16_store
                  (memmove s.chart_data_buffer_temperature
                    (s.chart_data_buffer_temperature.drop 2) 12)
                  6 (float_to_int temperature)) 6)]
             else []) ++
            (if s.check_humidity then
              [Call.lv_chart_set_next .humidity
                (int16_at (int16_store
                  (memmove s.chart_data_buffer_humidity
                    ((memmove s.chart_data_buffer_temperature
                      (s.chart_data_buffer_temperature.drop 2) 12).drop 2) 12)
                  6 (float_to_int humidity)) 6)]
             else []) ++
            (if s.check_pressure then
              [Call.lv_chart_set_next .pressure
                (int16_at (int16_store
                  (memmove s.chart_data_buffer_pressure
                    ((memmove s.chart_data_buffer_temperature
                      (s.chart_data_buffer_temperature.drop 2) 12).drop 2) 12)
                  6 (float_to_int (pressure / 100 - 980))) 6)]
             else []) ++
            (if s.check_dew_point then
              [Call.lv_chart_set_next .dew_point
                (int16_at (int16_store
                  (memmove s.chart_data_buffer_dew_point
                    ((memmove s.chart_data_buffer_temperature
                      (s.chart_data_buffer_temperature.drop 2) 12).drop 2) 12)
                  6 (float_to_int dew_point)) 6)]
             else []) } := by
  obtain ⟨tv, pv, hv, sp, lp, sb, bt, bh, bp, bd, cr, rc, rt, ra, dc, ct, ch, cp, cd, calls⟩ := s
  have e : ∀ n : Nat, n < 7 → to_uint8 ((n : Int) + 1) = n + 1 := fun n hn => by
    unfold to_uint8; omega
  by_cases hcr : cr < 7 <;> cases ct <;> cases ch <;> cases cp <;> cases cd <;>
    simp [update_lcd_graph, State.call, hcr, e, CHART_NUMBER_OF_POINTS, SIZEOF_INT16,
      SIZEOF_CHART_DATA_BUFFER, PRESSURE_TO_Y_AXIS_DIVISION, PRESSURE_TO_Y_AXIS_SUBTRACTION]


set_option maxRecDepth 100000 in
/-- C1, evaluated: after the eight pushes of `sample_pushes` from the start
state the temperature buffer holds the last seven temperatures 11..17, but the
humidity, pressure and dew-point buffers hold temperatures in slots 0..5 (12, 13,
14, 15, 16, 16) and only in slot 6 their own newest value, instead of 41..47,
21..27 and 2..8. -/
theorem update_lcd_graph_sample_pushes :
    int16_slots (run_ops sample_pushes State.init).chart_data_buffer_temperature
      = [11, 12, 13, 14, 15, 16, 17] ∧
    int16_slots (run_ops sample_pushes State.init).chart_data_buffer_humidity
      = [12, 13, 14, 15, 16, 16, 47] ∧
    int16_slots (run_ops sample_pushes State.init).chart_data_buffer_pressure
      = [12, 13, 14, 15, 16, 16, 27] ∧
    int16_slots (run_ops sample_pushes State.init).chart_data_buffer_dew_point
      = [12, 13, 14, 15, 16, 16, 8] := by
  with_unfolding_all decide

set_option maxRecDepth 100000 in
/-- C2, evaluated: after the eight pushes of `sample_pushes` and a click on the
clear button, only slots 0..3 of each history buffer are zero; slots 4..6 keep
what they held before the click (`memset` is given the element count 7 as its
byte count, half of the 14 bytes of an array). -/
theorem button_event_handler_sample_pushes :
    int16_slots (button_event_handler .ui_button_clear .LV_EVENT_CLICKED
        (run_ops sample_pushes State.init)).chart_data_buffer_temperature
      = [0, 0, 0, 0, 15, 16, 17] ∧
    int16_slots (button_event_handler .ui_button_clear .LV_EVENT_CLICKED
        (run_ops sample_pushes State.init)).chart_data_buffer_humidity
      = [0, 0, 0, 0, 16, 16, 47] ∧
    int16_slots (button_event_handler .ui_button_clear .LV_EVENT_CLICKED
        (run_ops sample_pushes State.init)).chart_data_buffer_pressure
      = [0, 0, 0, 0, 16, 16, 27] ∧
    int16_slots (button_event_handler .ui_button_clear .LV_EVENT_CLICKED
        (run_ops sample_pushes State.init)).chart_data_buffer_dew_point
      = [0, 0, 0, 0, 16, 16, 8] := by
  with_unfolding_all decide

/-! ## lcd.c: filled count -/

theorem update_lcd_graph_chart_readings (temperature humidity pressure dew_point : ℚ)
    (s : State) :
    (update_lcd_graph temperature humidity pressure dew_point s).chart_readings =
      if s.chart_readings < 7 then s.chart_readings + 1 else s.chart_readings := by
  rw [update_lcd_graph_eq]

theorem button_event_handler_chart_readings (obj : UiObject) (s : State) :
    (button_event_handler obj .LV_EVENT_CLICKED s).chart_readings = 0 := by
  simp [button_event_handler, State.call]

theorem pushes_since_clear_pushes (n : Nat) (ops : List LcdOp) (h : LcdOp.clear ∉ ops) :
    pushes_since_clear n ops = n + ops.length := by
  induction ops generalizing n with
  | nil => rfl
  | cons op rest ih =>
    cases op with
    | push t hu p d =>
      have hr : LcdOp.clear ∉ rest := fun hm => h (List.mem_cons_of_mem _ hm)
      show pushes_since_clear (n + 1) rest = n + (rest.length + 1)
      rw [ih (n + 1) hr]; omega
    | clear => exact absurd (List.mem_cons_self _ _) h

/-- The count restarts at every clear: after `pre`, a clear and then `post`
without a clear, it is the length of `post`. -/
theorem pushes_since_clear_after_clear (n : Nat) (pre post : List LcdOp)
    (h : LcdOp.clear ∉ post) :
    pushes_since_clear n (pre ++ LcdOp.clear :: post) = post.length := by
  unfold pushes_since_clear
  rw [List.foldl_append, List.foldl_cons]
  have := pushes_since_clear_pushes 0 post h
  unfold pushes_since_clear at this
  simpa using this

theorem run_ops_chart_readings (ops : List LcdOp) :
    ∀ (s : State) (n : Nat), s.chart_readings = min n 7 →
      (run_ops ops s).chart_readings = min (pushes_since_clear n ops) 7 := by
  induction ops with
  | nil => intro s n h; simpa [run_ops, pushes_since_clear] using h
  | cons op rest ih =>
    intro s n h
    cases op with
    | push t hu p d =>
      have step : (update_lcd_graph t hu p d s).chart_readings = min (n + 1) 7 := by
        rw [update_lcd_graph_chart_readings, h]
        split_ifs <;> omega
      exact ih _ _ step
    | clear =>
      have step : (button_event_handler .ui_button_clear .LV_EVENT_CLICKED s).chart_readings
          = min 0 7 := by
        rw [button_event_handler_chart_readings]; rfl
      exact ih _ _ step

/-- C6: `chart_readings` is 0 at program start and right after every click on
the clear button, and after any sequence of pushes and clears from the start
state it equals the smaller of 7 and the number of pushes since the last clear;
so it never exceeds 7. -/
theorem chart_readings_counts_pushes (ops : List LcdOp) (obj : UiObject) (s : State) :
    State.init.chart_readings = 0 ∧
    (button_event_handler obj .LV_EVENT_CLICKED s).chart_readings = 0 ∧
    (run_ops (ops ++ [.clear]) State.init).chart_readings = 0 ∧
    (run_ops ops State.init).chart_readings = min (pushes_since_clear 0 ops) 7 ∧
    (run_ops ops State.init).chart_readings ≤ 7 := by
  have h := run_ops_chart_readings ops State.init 0 rfl
  refine ⟨rfl, button_event_handler_chart_readings obj s, ?_, h, ?_⟩
  · simp [run_ops, List.foldl_append, LcdOp.run, button_event_handler_chart_readings]
  · rw [h]; exact min_le_right _ _

/-! ## lcd.c: replay on re-enabling a series -/

theorem int16_at?_of_lt (buf : List Nat) (i : Nat) (hlen : buf.length = 14) (hi : i < 7) :
    int16_at? buf i = some (int16_at buf i) := by
  unfold int16_at
  unfold int16_at? SIZEOF_INT16
  have h1 : 2 * i < buf.length := by omega
  have h2 : 2 * i + 1 < buf.length := by omega
  rw [List.getElem?_eq_getElem h1, List.getElem?_eq_getElem h2]
  rfl

theorem replay_loop_eq (buf : List Nat) (hlen : buf.length = 14) :
    ∀ (fuel i : Nat), i ≤ 7 → 7 - i < fuel →
      replay_loop buf fuel i = some ((List.range' i (7 - i)).map (int16_at buf)) := by
  intro fuel
  induction fuel with
  | zero => intro i _ h; omega
  | succ fuel ih =>
    intro i hi hf
    unfold replay_loop CHART_NUMBER_OF_POINTS
    by_cases h : i < 7
    · have e : to_uint8 ((i : Int) + 1) = i + 1 := by unfold to_uint8; omega
      have e' : to_uint8 (((i + 1 : Nat) : Int)) = i + 1 := by unfold to_uint8; omega
      have hr : 7 - i = (7 - (i + 1)) + 1 := by omega
      simp only [h, if_true]
      rw [int16_at?_of_lt buf i hlen h]
      have ih' := ih (i + 1) (by omega) (by omega)
      have : to_uint8 (↑i + 1) = i + 1 := e
      rw [this, ih', hr, List.range'_succ]
      simp
    · have : 7 - i = 0 := by omega
      simp [h, this]

/-- The replay for a ticked check box, with the check box, its tick and its
buffer named through `Series.check_box`, `State.checked` and `State.chart_data`. -/
theorem checkbox_event_handler_series (series : Series) (s : State)
    (hcr : s.chart_readings ≤ 7) (hlen : (s.chart_data series).length = 14)
    (hchk : s.checked series = true) :
    checkbox_event_handler series.check_box .LV_EVENT_VALUE_CHANGED s =
      some
        { s with
          calls :=
            s.calls ++
              (List.range' (7 - s.chart_readings) s.chart_readings).map
                (fun i => Call.lv_chart_set_next series (int16_at (s.chart_data series) i)) ++
              [Call.lv_chart_refresh] } ∧
    ((List.range' (7 - s.chart_readings) s.chart_readings).map
        (fun i => Call.lv_chart_set_next series (int16_at (s.chart_data series) i))).length =
      s.chart_readings ∧
    ∀ i ∈ List.range' (7 - s.chart_readings) s.chart_readings,
      7 - s.chart_readings ≤ i ∧ i < 7 := by
  have e : to_uint8 (((CHART_NUMBER_OF_POINTS : Nat) : Int) - (s.chart_readings : Int))
      = 7 - s.chart_readings := by
    unfold to_uint8 CHART_NUMBER_OF_POINTS; omega
  have hl := replay_loop_eq (s.chart_data series) hlen 256 (7 - s.chart_readings)
    (by omega) (by omega)
  have hk : 7 - (7 - s.chart_readings) = s.chart_readings := by omega
  rw [hk] at hl
  refine ⟨?_, by simp, ?_⟩
  · cases series <;>
      simp [checkbox_event_handler, Series.check_box, hchk, e, hl, State.call, List.map_map,
        Function.comp_def]
  · intro i hi
    rw [List.mem_range'_1] at hi
    omega

/-- C7: when `checkbox_event_handler` receives `LV_EVENT_VALUE_CHANGED` for a
check box that is now ticked, and `chart_readings ≤ 7`, it returns normally (no
array read outside the array) and the calls it makes are exactly
`chart_readings` calls of `lv_chart_set_next` on the series of that check box,
followed by `lv_chart_refresh`.  The values are the elements at indices
`7 - chart_readings, ..., 6`, in increasing index order, of
`chart_data_buffer_temperature` for `ui_check_temperature`, of
`chart_data_buffer_humidity` for `ui_check_humidity`, of
`chart_data_buffer_pressure` for `ui_check_pressure` and of
`chart_data_buffer_dew_point` for `ui_check_dew_point`; every index is below 7. -/
theorem checkbox_event_handler_replays (s : State) (hcr : s.chart_readings ≤ 7) :
    (s.check_temperature = true → s.chart_data_buffer_temperature.length = 14 →
      checkbox_event_handler UiObject.ui_check_temperature .LV_EVENT_VALUE_CHANGED s =
        some
          { s with
            calls :=
              s.calls ++
                (List.range' (7 - s.chart_readings) s.chart_readings).map
                  (fun i => Call.lv_chart_set_next Series.temperature
                    (int16_at s.chart_data_buffer_temperature i)) ++
                [Call.lv_chart_refresh] }) ∧
    (s.check_humidity = true → s.chart_data_buffer_humidity.length = 14 →
      checkbox_event_handler UiObject.ui_check_humidity .LV_EVENT_VALUE_CHANGED s =
        some
          { s with
            calls :=
              s.calls ++
                (List.range' (7 - s.chart_readings) s.chart_readings).map
                  (fun i => Call.lv_chart_set_next Series.humidity
                    (int16_at s.chart_data_buffer_humidity i)) ++
                [Call.lv_chart_refresh] }) ∧
    (s.check_pressure = true → s.chart_data_buffer_pressure.length = 14 →
      checkbox_event_handler UiObject.ui_check_pressure .LV_EVENT_VALUE_CHANGED s =
        some
          { s with
            calls :=
              s.calls ++
                (List.range' (7 - s.chart_readings) s.chart_readings).map
                  (fun i => Call.lv_chart_set_next Series.pressure
                    (int16_at s.chart_data_buffer_pressure i)) ++
                [Call.lv_chart_refresh] }) ∧
    (s.check_dew_point = true → s.chart_data_buffer_dew_point.length = 14 →
      checkbox_event_handler UiObject.ui_check_dew_point .LV_EVENT_VALUE_CHANGED s =
        some
          { s with
            calls :=
              s.calls ++
                (List.range' (7 - s.chart_readings) s.chart_readings).map
                  (fun i => Call.lv_chart_set_next Series.dew_point
                    (int16_at s.chart_data_buffer_dew_point i)) ++
                [Call.lv_chart_refresh] }) ∧
    (List.range' (7 - s.chart_readings) s.chart_readings).length = s.chart_readings ∧
    ∀ i ∈ List.range' (7 - s.chart_readings) s.chart_readings,
      7 - s.chart_readings ≤ i ∧ i < 7 := by
  refine ⟨fun hc hl => ?_, fun hc hl => ?_, fun hc hl => ?_, fun hc hl => ?_, by simp, ?_⟩
  · exact (checkbox_event_handler_series Series.temperature s hcr hl hc).1
  · exact (checkbox_event_handler_series Series.humidity s hcr hl hc).1
  · exact (checkbox_event_handler_series Series.pressure s hcr hl hc).1
  · exact (checkbox_event_handler_series Series.dew_point s hcr hl hc).1
  · intro i hi
    rw [List.mem_range'_1] at hi
    omega

set_option maxRecDepth 100000 in
/-- C7, on a display with three readings, where the four buffers hold
`[0,0,0,0,10,11,12]`, `[0,0,0,10,11,11,42]`, `[0,0,0,10,11,11,22]` and
`[0,0,0,10,11,11,3]`: ticking a check box replays the last three elements of
the buffer of its own series. -/
theorem checkbox_event_handler_replays_witness :
    sample_display.chart_readings = 3 ∧
    int16_slots sample_display.chart_data_buffer_temperature = [0, 0, 0, 0, 10, 11, 12] ∧
    int16_slots sample_display.chart_data_buffer_humidity = [0, 0, 0, 10, 11, 11, 42] ∧
    int16_slots sample_display.chart_data_buffer_pressure = [0, 0, 0, 10, 11, 11, 22] ∧
    int16_slots sample_display.chart_data_buffer_dew_point = [0, 0, 0, 10, 11, 11, 3] ∧
    checkbox_event_handler UiObject.ui_check_temperature .LV_EVENT_VALUE_CHANGED sample_display =
      some
        { sample_display with
          calls :=
            sample_display.calls ++
              [Call.lv_chart_set_next Series.temperature 10,
               Call.lv_chart_set_next Series.temperature 11,
               Call.lv_chart_set_next Series.temperature 12, Call.lv_chart_refresh] } ∧
    checkbox_event_handler UiObject.ui_check_humidity .LV_EVENT_VALUE_CHANGED sample_display =
      some
        { sample_display with
          calls :=
            sample_display.calls ++
              [Call.lv_chart_set_next Series.humidity 11,
               Call.lv_chart_set_next Series.humidity 11,
               Call.lv_chart_set_next Series.humidity 42, Call.lv_chart_refresh] } ∧
    checkbox_event_handler UiObject.ui_check_pressure .LV_EVENT_VALUE_CHANGED sample_display =
      some
        { sample_display with
          calls :=
            sample_display.calls ++
              [Call.lv_chart_set_next Series.pressure 11,
               Call.lv_chart_set_next Series.pressure 11,
               Call.lv_chart_set_next Series.pressure 22, Call.lv_chart_refresh] } ∧
    checkbox_event_handler UiObject.ui_check_dew_point .LV_EVENT_VALUE_CHANGED sample_display =
      some
        { sample_display with
          calls :=
            sample_display.calls ++
              [Call.lv_chart_set_next Series.dew_point 11,
               Call.lv_chart_set_next Series.dew_point 11,
               Call.lv_chart_set_next Series.dew_point 3, Call.lv_chart_refresh] } := by
  have h := checkbox_event_handler_replays sample_display (by with_unfolding_all decide)
  refine ⟨by with_unfolding_all decide, by with_unfolding_all decide,
    by with_unfolding_all decide, by with_unfolding_all decide, by with_unfolding_all decide,
    ?_, ?_, ?_, ?_⟩
  · rw [h.1 (by with_unfolding_all decide) (by with_unfolding_all decide)]
    with_unfolding_all decide
  · rw [h.2.1 (by with_unfolding_all decide) (by with_unfolding_all decide)]
    with_unfolding_all decide
  · rw [h.2.2.1 (by with_unfolding_all decide) (by with_unfolding_all decide)]
    with_unfolding_all decide
  · rw [h.2.2.2.1 (by with_unfolding_all decide) (by with_unfolding_all decide)]
    with_unfolding_all decide

/-! ## main.c: the update cycle -/

theorem update_lcd_graph_calls (temperature humidity pressure dew_point : ℚ) (s : State) :
    ∃ rest : List Call,
      (update_lcd_graph temperature humidity pressure dew_point s).calls = s.calls ++ rest ∧
      rest.filter Call.is_ess_svc_update = [] := by
  rw [update_lcd_graph_eq]
  refine ⟨_, by simp only [List.append_assoc]; rfl, ?_⟩
  simp only [List.filter_append]
  split_ifs <;> simp [Call.is_ess_svc_update]

theorem read_temperature_call (s : State) (c : Call) :
    read_temperature (s.call c) = read_temperature s := rfl

theorem read_humidity_call (s : State) (c : Call) :
    read_humidity (s.call c) = read_humidity s := rfl

theorem read_pressure_call (s : State) (c : Call) :
    read_pressure (s.call c) = read_pressure s := rfl

theorem read_pressure_float_call (s : State) (c : Call) :
    read_pressure_float (s.call c) = read_pressure_float s := rfl

theorem read_sensor_calls (drv : SensorReading) (s : State) :
    (read_sensor drv s).calls = s.calls := by
  unfold read_sensor; split <;> rfl

theorem ess_svc_update_handler_display (drv : SensorReading) (s : State) :
    ess_svc_update_handler true drv s =
      update_lcd_graph (read_temperature_float (read_sensor drv s))
        (read_humidity_float (read_sensor drv s)) (read_pressure_float (read_sensor drv s))
        ((calculate_dew_point ((read_temperature_float (read_sensor drv s) : ℚ) : ℝ)
          ((read_humidity_float (read_sensor drv s) : ℚ) : ℝ) : Int) : ℚ)
        (((((read_sensor drv s).call
          (Call.ess_svc_update_temperature (read_temperature (read_sensor drv s)))).call
          (Call.ess_svc_update_humidity (read_humidity (read_sensor drv s)))).call
          (Call.ess_svc_update_pressure (read_pressure (read_sensor drv s)))).call
          (Call.ess_svc_update_dew_point
            (calculate_dew_point ((read_temperature_float (read_sensor drv s) : ℚ) : ℝ)
              ((read_humidity_float (read_sensor drv s) : ℚ) : ℝ)))) := by
  unfold ess_svc_update_handler
  simp only [if_true]
  simp only [read_temperature_call, read_humidity_call, read_pressure_call,
    read_pressure_float_call]

theorem ess_svc_update_handler_headless (drv : SensorReading) (s : State) :
    ess_svc_update_handler false drv s =
      ((((read_sensor drv s).call
          (Call.ess_svc_update_temperature (read_temperature (read_sensor drv s)))).call
          (Call.ess_svc_update_humidity (read_humidity (read_sensor drv s)))).call
          (Call.ess_svc_update_pressure (read_pressure (read_sensor drv s)))).call
          (Call.ess_svc_update_dew_point
            (calculate_dew_point ((read_temperature_float (read_sensor drv s) : ℚ) : ℝ)
              ((read_humidity_float (read_sensor drv s) : ℚ) : ℝ))) := by
  unfold ess_svc_update_handler
  simp only [Bool.false_eq_true, if_false, read_temperature_call, read_humidity_call,
    read_pressure_call]

/-- C8: one run of `ess_svc_update_handler` appends to the calls made so far,
and the telemetry calls among the ones it appends are exactly four, in the
order temperature, humidity, pressure, dew point, carrying `read_temperature()`,
`read_humidity()`, `read_pressure()` and
`calculate_dew_point(temperature_float, humidity_float)`, all taken from the
state left by the `read_sensor` call at the start of the cycle (the driver
values when the sensor is present).  This holds with and without
`CONFIG_DISPLAY`. -/
theorem ess_svc_update_handler_dispatches (CONFIG_DISPLAY : Bool) (drv : SensorReading)
    (s : State) :
    ∃ new : List Call,
      (ess_svc_update_handler CONFIG_DISPLAY drv s).calls = s.calls ++ new ∧
      new.filter Call.is_ess_svc_update =
        [Call.ess_svc_update_temperature (read_temperature (read_sensor drv s)),
         Call.ess_svc_update_humidity (read_humidity (read_sensor drv s)),
         Call.ess_svc_update_pressure (read_pressure (read_sensor drv s)),
         Call.ess_svc_update_dew_point
           (calculate_dew_point ((read_temperature_float (read_sensor drv s) : ℚ) : ℝ)
             ((read_humidity_float (read_sensor drv s) : ℚ) : ℝ))] ∧
      (is_sensor_present s = true →
        (read_sensor drv s).temperature_value = drv.temperature ∧
        (read_sensor drv s).humidity_value = drv.humidity ∧
        (read_sensor drv s).pressure_value = drv.pressure) := by
  have hs : is_sensor_present s = true →
      (read_sensor drv s).temperature_value = drv.temperature ∧
      (read_sensor drv s).humidity_value = drv.humidity ∧
      (read_sensor drv s).pressure_value = drv.pressure := by
    intro h
    simp only [is_sensor_present] at h
    simp [read_sensor, h]
  have hc := read_sensor_calls drv s
  cases CONFIG_DISPLAY with
  | false =>
    rw [ess_svc_update_handler_headless]
    refine ⟨[Call.ess_svc_update_temperature (read_temperature (read_sensor drv s)),
         Call.ess_svc_update_humidity (read_humidity (read_sensor drv s)),
         Call.ess_svc_update_pressure (read_pressure (read_sensor drv s)),
         Call.ess_svc_update_dew_point
           (calculate_dew_point ((read_temperature_float (read_sensor drv s) : ℚ) : ℝ)
             ((read_humidity_float (read_sensor drv s) : ℚ) : ℝ))], ?_, ?_, hs⟩
    · simp [State.call, hc]
    · simp [Call.is_ess_svc_update]
  | true =>
    rw [ess_svc_update_handler_display]
    obtain ⟨rest, h1, h2⟩ := update_lcd_graph_calls
      (read_temperature_float (read_sensor drv s))
      (read_humidity_float (read_sensor drv s)) (read_pressure_float (read_sensor drv s))
      ((calculate_dew_point ((read_temperature_float (read_sensor drv s) : ℚ) : ℝ)
        ((read_humidity_float (read_sensor drv s) : ℚ) : ℝ) : Int) : ℚ)
      (((((read_sensor drv s).call
        (Call.ess_svc_update_temperature (read_temperature (read_sensor drv s)))).call
        (Call.ess_svc_update_humidity (read_humidity (read_sensor drv s)))).call
        (Call.ess_svc_update_pressure (read_pressure (read_sensor drv s)))).call
        (Call.ess_svc_update_dew_point
          (calculate_dew_point ((read_temperature_float (read_sensor drv s) : ℚ) : ℝ)
            ((read_humidity_float (read_sensor drv s) : ℚ) : ℝ))))
    refine ⟨[Call.ess_svc_update_temperature (read_temperature (read_sensor drv s)),
         Call.ess_svc_update_humidity (read_humidity (read_sensor drv s)),
         Call.ess_svc_update_pressure (read_pressure (read_sensor drv s)),
         Call.ess_svc_update_dew_point
           (calculate_dew_point ((read_temperature_float (read_sensor drv s) : ℚ) : ℝ)
             ((read_humidity_float (read_sensor drv s) : ℚ) : ℝ))] ++ rest, ?_, ?_, hs⟩
    · rw [h1]
      simp [State.call, hc]
    · rw [List.filter_append, h2]
      simp [Call.is_ess_svc_update]

/-- C8, on a board with a display: the cycle run on the sample state with a
fresh driver reading dispatches the four telemetry values computed from that
reading. -/
theorem ess_svc_update_handler_dispatches_witness :
    is_sensor_present sample_reading = true ∧
    ∃ new : List Call,
      (ess_svc_update_handler true sample_drv sample_reading).calls =
        sample_reading.calls ++ new ∧
      new.filter Call.is_ess_svc_update =
        [Call.ess_svc_update_temperature
           (read_temperature (read_sensor sample_drv sample_reading)),
         Call.ess_svc_update_humidity
           (read_humidity (read_sensor sample_drv sample_reading)),
         Call.ess_svc_update_pressure
           (read_pressure (read_sensor sample_drv sample_reading)),
         Call.ess_svc_update_dew_point
           (calculate_dew_point
             ((read_temperature_float
               (read_sensor sample_drv sample_reading) : ℚ) : ℝ)
             ((read_humidity_float
               (read_sensor sample_drv sample_reading) : ℚ) : ℝ))] ∧
      (is_sensor_present sample_reading = true →
        (read_sensor sample_drv sample_reading).temperature_value =
          sample_drv.temperature ∧
        (read_sensor sample_drv sample_reading).humidity_value =
          sample_drv.humidity ∧
        (read_sensor sample_drv sample_reading).pressure_value =
          sample_drv.pressure) :=
  ⟨by decide, ess_svc_update_handler_dispatches true sample_drv sample_reading⟩

/-! ## main.c: start-up with an absent sensor -/

/-- C9: when the sensor does not bind, `main` makes no `ess_svc_update_*` call
and no `k_timer_start` call, with and without `CONFIG_DISPLAY` and whether or
not the display binds: the only calls it adds are the three that show the error
text, and only in a display build whose display is found. -/
theorem main_sensor_absent (b : Board) (s : State) (h : b.sensor_dev = false) :
    (main b s).calls =
      s.calls ++
        (if b.CONFIG_DISPLAY = true ∧ b.display_dev = true then
          [Call.lv_label_set_text (StatusText.error (some ErrorString.sensor_not_detected)),
           Call.display_blanking_off, Call.lv_task_handler]
         else []) ∧
    (∀ c ∈ (if b.CONFIG_DISPLAY = true ∧ b.display_dev = true then
          [Call.lv_label_set_text (StatusText.error (some ErrorString.sensor_not_detected)),
           Call.display_blanking_off, Call.lv_task_handler]
         else []),
      c.is_ess_svc_update = false ∧ c.is_k_timer_start = false) ∧
    is_sensor_present (main b s) = false := by
  obtain ⟨cd, cdis, sd, dd, err, drv⟩ := b
  simp only at h
  subst h
  cases cd <;> cases dd <;>
    simp [main, setup_sensor, is_sensor_present, setup_lcd, State.call,
      Call.is_ess_svc_update, Call.is_k_timer_start]

/-- C9, on a display build whose sensor does not bind: from the start state
`main` only shows the error text. -/
theorem main_sensor_absent_witness :
    sample_board_no_sensor.sensor_dev = false ∧
    (main sample_board_no_sensor State.init).calls =
      [Call.lv_label_set_text (StatusText.error (some ErrorString.sensor_not_detected)),
       Call.display_blanking_off, Call.lv_task_handler] := by
  refine ⟨rfl, ?_⟩
  have h := (main_sensor_absent sample_board_no_sensor State.init rfl).1
  rw [h]
  rfl

/-- With the sensor and the display present and Bluetooth up, a display build
of `main` does arm both timers. -/
theorem main_sensor_present_arms_timers :
    ((main { sample_board_no_sensor with sensor_dev := true } State.init).calls.filter
      Call.is_k_timer_start) =
      [Call.k_timer_start Timer.ess_lcd_display_update_timer 10 10,
       Call.k_timer_start Timer.ess_svc_update_timer 2000 10000] := by
  decide

/-! ## Display presence and the update cycle -/

theorem read_sensor_lcd_present (drv : SensorReading) (s : State) (l : Bool) :
    read_sensor drv { s with lcd_present := l } = { read_sensor drv s with lcd_present := l } := by
  unfold read_sensor
  by_cases h : s.sensor_present = true
  · simp [h]
  · simp [h]

theorem update_lcd_graph_lcd_present (temperature humidity pressure dew_point : ℚ) (s : State)
    (l : Bool) :
    update_lcd_graph temperature humidity pressure dew_point { s with lcd_present := l } =
      { update_lcd_graph temperature humidity pressure dew_point s with lcd_present := l } := by
  rw [update_lcd_graph_eq, update_lcd_graph_eq]

theorem read_temperature_lcd_present (s : State) (l : Bool) :
    read_temperature { s with lcd_present := l } = read_temperature s := rfl

theorem read_humidity_lcd_present (s : State) (l : Bool) :
    read_humidity { s with lcd_present := l } = read_humidity s := rfl

theorem read_pressure_lcd_present (s : State) (l : Bool) :
    read_pressure { s with lcd_present := l } = read_pressure s := rfl

theorem read_temperature_float_lcd_present (s : State) (l : Bool) :
    read_temperature_float { s with lcd_present := l } = read_temperature_float s := rfl

theorem read_humidity_float_lcd_present (s : State) (l : Bool) :
    read_humidity_float { s with lcd_present := l } = read_humidity_float s := rfl

theorem read_pressure_float_lcd_present (s : State) (l : Bool) :
    read_pressure_float { s with lcd_present := l } = read_pressure_float s := rfl

theorem call_lcd_present (s : State) (l : Bool) (c : Call) :
    State.call { s with lcd_present := l } c = { s.call c with lcd_present := l } := rfl

theorem ess_svc_update_handler_lcd_present (CONFIG_DISPLAY : Bool) (drv : SensorReading)
    (s : State) (l : Bool) :
    ess_svc_update_handler CONFIG_DISPLAY drv { s with lcd_present := l } =
      { ess_svc_update_handler CONFIG_DISPLAY drv s with lcd_present := l } := by
  cases CONFIG_DISPLAY with
  | false =>
    rw [ess_svc_update_handler_headless, ess_svc_update_handler_headless,
      read_sensor_lcd_present]
    simp only [read_temperature_lcd_present, read_humidity_lcd_present,
      read_pressure_lcd_present, read_temperature_float_lcd_present,
      read_humidity_float_lcd_present, call_lcd_present]
  | true =>
    rw [ess_svc_update_handler_display, ess_svc_update_handler_display,
      read_sensor_lcd_present]
    simp only [read_temperature_lcd_present, read_humidity_lcd_present,
      read_pressure_lcd_present, read_temperature_float_lcd_present,
      read_humidity_float_lcd_present, read_pressure_float_lcd_present, call_lcd_present]
    rw [update_lcd_graph_lcd_present]

/-- C11: two runs of `ess_svc_update_handler` from states that differ only in
`lcd_present` (same build, same driver reading) make the same platform calls, in
particular dispatch the same four telemetry values, and leave the same four
history buffers and the same `chart_readings`; the resulting states again differ
only in `lcd_present`. -/
theorem ess_svc_update_handler_ignores_lcd_present (CONFIG_DISPLAY : Bool)
    (drv : SensorReading) (s : State) (l : Bool) :
    (ess_svc_update_handler CONFIG_DISPLAY drv { s with lcd_present := l }).calls =
      (ess_svc_update_handler CONFIG_DISPLAY drv s).calls ∧
    (ess_svc_update_handler CONFIG_DISPLAY drv { s with lcd_present := l }).calls.filter
        Call.is_ess_svc_update =
      (ess_svc_update_handler CONFIG_DISPLAY drv s).calls.filter Call.is_ess_svc_update ∧
    (∀ series : Series,
      (ess_svc_update_handler CONFIG_DISPLAY drv { s with lcd_present := l }).chart_data series =
        (ess_svc_update_handler CONFIG_DISPLAY drv s).chart_data series) ∧
    (ess_svc_update_handler CONFIG_DISPLAY drv { s with lcd_present := l }).chart_readings =
      (ess_svc_update_handler CONFIG_DISPLAY drv s).chart_readings ∧
    ess_svc_update_handler CONFIG_DISPLAY drv { s with lcd_present := l } =
      { ess_svc_update_handler CONFIG_DISPLAY drv s with lcd_present := l } := by
  have h := ess_svc_update_handler_lcd_present CONFIG_DISPLAY drv s l
  rw [h]
  refine ⟨rfl, rfl, ?_, rfl, rfl⟩
  intro series
  cases series <;> rfl

/-! ## lcd.c: what a push does to each buffer -/

theorem list_length_14 (l : List Nat) (h : l.length = 14) :
    ∃ b0 b1 b2 b3 b4 b5 b6 b7 b8 b9 b10 b11 b12 b13 : Nat,
      l = [b0, b1, b2, b3, b4, b5, b6, b7, b8, b9, b10, b11, b12, b13] := by
  rcases l with _ | ⟨b0, l⟩
  · simp at h
  rcases l with _ | ⟨b1, l⟩
  · simp at h
  rcases l with _ | ⟨b2, l⟩
  · simp at h
  rcases l with _ | ⟨b3, l⟩
  · simp at h
  rcases l with _ | ⟨b4, l⟩
  · simp at h
  rcases l with _ | ⟨b5, l⟩
  · simp at h
  rcases l with _ | ⟨b6, l⟩
  · simp at h
  rcases l with _ | ⟨b7, l⟩
  · simp at h
  rcases l with _ | ⟨b8, l⟩
  · simp at h
  rcases l with _ | ⟨b9, l⟩
  · simp at h
  rcases l with _ | ⟨b10, l⟩
  · simp at h
  rcases l with _ | ⟨b11, l⟩
  · simp at h
  rcases l with _ | ⟨b12, l⟩
  · simp at h
  rcases l with _ | ⟨b13, l⟩
  · simp at h
  rcases l with _ | ⟨b14, l⟩
  · exact ⟨b0, b1, b2, b3, b4, b5, b6, b7, b8, b9, b10, b11, b12, b13, rfl⟩
  · simp at h

theorem to_int16_of_uint16_bytes (v : Int) :
    to_int16 (((to_uint16 v % 256 : Nat) : Int) + 256 * ((to_uint16 v / 256 : Nat) : Int))
      = to_int16 v := by
  unfold to_int16 to_uint16
  omega

/-- The slots of a buffer after the shift from `src` and the store of `v`:
elements 1..6 of what `src` holds after its first 12 bytes were overwritten
are not looked at; the six copied elements are elements 1..6 of `src`. -/
theorem int16_slots_shift_store (dst src : List Nat) (v : Int)
    (hd : dst.length = 14) (hs : src.length = 14) :
    int16_slots (int16_store (memmove dst (src.drop 2) 12) 6 v) =
      [int16_at src 1, int16_at src 2, int16_at src 3, int16_at src 4, int16_at src 5,
       int16_at src 6, to_int16 v] := by
  obtain ⟨d0, d1, d2, d3, d4, d5, d6, d7, d8, d9, d10, d11, d12, d13, rfl⟩ :=
    list_length_14 dst hd
  obtain ⟨b0, b1, b2, b3, b4, b5, b6, b7, b8, b9, b10, b11, b12, b13, rfl⟩ :=
    list_length_14 src hs
  rw [← to_int16_of_uint16_bytes v]
  rfl

/-- The slots of a buffer after the shift from the already shifted temperature
buffer `tb` and the store of `v`. -/
theorem int16_slots_shift_from_shifted (dst tb : List Nat) (v : Int)
    (hd : dst.length = 14) (ht : tb.length = 14) :
    int16_slots (int16_store (memmove dst ((memmove tb (tb.drop 2) 12).drop 2) 12) 6 v) =
      [int16_at tb 2, int16_at tb 3, int16_at tb 4, int16_at tb 5, int16_at tb 6,
       int16_at tb 6, to_int16 v] := by
  obtain ⟨d0, d1, d2, d3, d4, d5, d6, d7, d8, d9, d10, d11, d12, d13, rfl⟩ :=
    list_length_14 dst hd
  obtain ⟨b0, b1, b2, b3, b4, b5, b6, b7, b8, b9, b10, b11, b12, b13, rfl⟩ :=
    list_length_14 tb ht
  rw [← to_int16_of_uint16_bytes v]
  rfl

/-- The temperature buffer is a first-in first-out history of its own values. -/
theorem update_lcd_graph_temperature_slots (temperature humidity pressure dew_point : ℚ)
    (s : State) (hT : s.chart_data_buffer_temperature.length = 14) :
    int16_slots (update_lcd_graph temperature humidity pressure dew_point s).chart_data_buffer_temperature =
      [int16_at s.chart_data_buffer_temperature 1, int16_at s.chart_data_buffer_temperature 2,
       int16_at s.chart_data_buffer_temperature 3, int16_at s.chart_data_buffer_temperature 4,
       int16_at s.chart_data_buffer_temperature 5, int16_at s.chart_data_buffer_temperature 6,
       to_int16 (float_to_int temperature)] := by
  rw [update_lcd_graph_eq]
  exact int16_slots_shift_store _ _ _ hT hT

/-- C16: in `update_lcd_graph` the humidity, pressure and dew-point buffers are
filled from the temperature buffer.  With `t[0..6]` the temperature buffer
before the call, after the call each of these three buffers holds
`t[2], t[3], t[4], t[5], t[6], t[6]` in slots 0..5, whatever it held before, and
in slot 6 the new value of its own quantity. -/
theorem update_lcd_graph_shifts_from_temperature (temperature humidity pressure dew_point : ℚ)
    (s : State) (hT : s.chart_data_buffer_temperature.length = 14)
    (hH : s.chart_data_buffer_humidity.length = 14)
    (hP : s.chart_data_buffer_pressure.length = 14)
    (hD : s.chart_data_buffer_dew_point.length = 14) :
    int16_slots (update_lcd_graph temperature humidity pressure dew_point s).chart_data_buffer_humidity =
      [int16_at s.chart_data_buffer_temperature 2, int16_at s.chart_data_buffer_temperature 3,
       int16_at s.chart_data_buffer_temperature 4, int16_at s.chart_data_buffer_temperature 5,
       int16_at s.chart_data_buffer_temperature 6, int16_at s.chart_data_buffer_temperature 6,
       to_int16 (float_to_int humidity)] ∧
    int16_slots (update_lcd_graph temperature humidity pressure dew_point s).chart_data_buffer_pressure =
      [int16_at s.chart_data_buffer_temperature 2, int16_at s.chart_data_buffer_temperature 3,
       int16_at s.chart_data_buffer_temperature 4, int16_at s.chart_data_buffer_temperature 5,
       int16_at s.chart_data_buffer_temperature 6, int16_at s.chart_data_buffer_temperature 6,
       to_int16 (float_to_int (pressure / 100 - 980))] ∧
    int16_slots (update_lcd_graph temperature humidity pressure dew_point s).chart_data_buffer_dew_point =
      [int16_at s.chart_data_buffer_temperature 2, int16_at s.chart_data_buffer_temperature 3,
       int16_at s.chart_data_buffer_temperature 4, int16_at s.chart_data_buffer_temperature 5,
       int16_at s.chart_data_buffer_temperature 6, int16_at s.chart_data_buffer_temperature 6,
       to_int16 (float_to_int dew_point)] := by
  rw [update_lcd_graph_eq]
  exact ⟨int16_slots_shift_from_shifted _ _ _ hH hT, int16_slots_shift_from_shifted _ _ _ hP hT,
    int16_slots_shift_from_shifted _ _ _ hD hT⟩

set_option maxRecDepth 100000 in
/-- C16, on a display holding three readings (temperatures 10, 11, 12 in slots
4..6): a fourth push leaves `0, 0, 10, 11, 12, 12` in slots 0..5 of the humidity,
pressure and dew-point buffers. -/
theorem update_lcd_graph_shifts_from_temperature_witness :
    int16_slots sample_display.chart_data_buffer_temperature = [0, 0, 0, 0, 10, 11, 12] ∧
    int16_slots (update_lcd_graph 13 43 100300 4 sample_display).chart_data_buffer_humidity =
      [0, 0, 10, 11, 12, 12, 43] ∧
    int16_slots (update_lcd_graph 13 43 100300 4 sample_display).chart_data_buffer_pressure =
      [0, 0, 10, 11, 12, 12, 23] ∧
    int16_slots (update_lcd_graph 13 43 100300 4 sample_display).chart_data_buffer_dew_point =
      [0, 0, 10, 11, 12, 12, 4] := by
  have h := update_lcd_graph_shifts_from_temperature 13 43 100300 4 sample_display
    (by with_unfolding_all decide) (by with_unfolding_all decide)
    (by with_unfolding_all decide) (by with_unfolding_all decide)
  refine ⟨by with_unfolding_all decide, ?_, ?_, ?_⟩
  · rw [h.1]; with_unfolding_all decide
  · rw [h.2.1]; with_unfolding_all decide
  · rw [h.2.2]; with_unfolding_all decide

/-! ## lcd.c: pushes with an absent display -/

theorem chart_data_call (s : State) (c : Call) (series : Series) :
    (s.call c).chart_data series = s.chart_data series := by
  cases series <;> rfl

theorem chart_readings_call (s : State) (c : Call) :
    (s.call c).chart_readings = s.chart_readings := rfl

theorem read_sensor_chart_data (drv : SensorReading) (s : State) (series : Series) :
    (read_sensor drv s).chart_data series = s.chart_data series := by
  unfold read_sensor
  split <;> cases series <;> rfl

theorem read_sensor_chart_readings (drv : SensorReading) (s : State) :
    (read_sensor drv s).chart_readings = s.chart_readings := by
  unfold read_sensor
  split <;> rfl

theorem ess_svc_update_handler_headless_history (drv : SensorReading) (s : State) :
    (∀ series : Series, (ess_svc_update_handler false drv s).chart_data series =
      s.chart_data series) ∧
    (ess_svc_update_handler false drv s).chart_readings = s.chart_readings := by
  rw [ess_svc_update_handler_headless]
  refine ⟨fun series => ?_, ?_⟩
  · simp only [chart_data_call]
    exact read_sensor_chart_data drv s series
  · simp only [chart_readings_call]
    exact read_sensor_chart_readings drv s

set_option maxRecDepth 100000 in
/-- C12, as stated, fails: in the start state `lcd_present` is false, yet
`update_lcd_graph(21, 40, 101300, 5)` writes 21, 40, 33 and 5 into slot 6 of the
four history buffers and raises `chart_readings` from 0 to 1. -/
theorem update_lcd_graph_absent_display_pushes :
    State.init.lcd_present = false ∧
    int16_slots State.init.chart_data_buffer_temperature = [0, 0, 0, 0, 0, 0, 0] ∧
    State.init.chart_readings = 0 ∧
    int16_slots (update_lcd_graph 21 40 101300 5 State.init).chart_data_buffer_temperature =
      [0, 0, 0, 0, 0, 0, 21] ∧
    int16_slots (update_lcd_graph 21 40 101300 5 State.init).chart_data_buffer_humidity =
      [0, 0, 0, 0, 0, 0, 40] ∧
    int16_slots (update_lcd_graph 21 40 101300 5 State.init).chart_data_buffer_pressure =
      [0, 0, 0, 0, 0, 0, 33] ∧
    int16_slots (update_lcd_graph 21 40 101300 5 State.init).chart_data_buffer_dew_point =
      [0, 0, 0, 0, 0, 0, 5] ∧
    (update_lcd_graph 21 40 101300 5 State.init).chart_readings = 1 ∧
    (update_lcd_graph 21 40 101300 5 State.init).chart_data_buffer_temperature ≠
      State.init.chart_data_buffer_temperature ∧
    (update_lcd_graph 21 40 101300 5 State.init).chart_readings ≠ State.init.chart_readings := by
  with_unfolding_all decide

/-- C12 (as amended): `update_lcd_graph` does not look at `lcd_present`.  Called
with `lcd_present` false it pushes exactly as with `lcd_present` true: the
temperature buffer drops its oldest element and takes the new value in slot 6,
all four buffers and `chart_readings` end as they do with the display present,
and `chart_readings` goes up by one until it is 7.  The history is left as it
was only by the update cycle of a build without `CONFIG_DISPLAY`, which does
not call `update_lcd_graph`. -/
theorem update_lcd_graph_pushes_without_display (temperature humidity pressure dew_point : ℚ)
    (s : State) (hl : s.lcd_present = false)
    (hT : s.chart_data_buffer_temperature.length = 14) :
    int16_slots
        (update_lcd_graph temperature humidity pressure dew_point s).chart_data_buffer_temperature =
      [int16_at s.chart_data_buffer_temperature 1, int16_at s.chart_data_buffer_temperature 2,
       int16_at s.chart_data_buffer_temperature 3, int16_at s.chart_data_buffer_temperature 4,
       int16_at s.chart_data_buffer_temperature 5, int16_at s.chart_data_buffer_temperature 6,
       to_int16 (float_to_int temperature)] ∧
    (update_lcd_graph temperature humidity pressure dew_point s).chart_readings =
      (if s.chart_readings < 7 then s.chart_readings + 1 else s.chart_readings) ∧
    (∀ series : Series,
      (update_lcd_graph temperature humidity pressure dew_point s).chart_data series =
        (update_lcd_graph temperature humidity pressure dew_point
          { s with lcd_present := true }).chart_data series) ∧
    (update_lcd_graph temperature humidity pressure dew_point s).chart_readings =
      (update_lcd_graph temperature humidity pressure dew_point
        { s with lcd_present := true }).chart_readings ∧
    (update_lcd_graph temperature humidity pressure dew_point s).lcd_present = false ∧
    ∀ drv : SensorReading,
      (∀ series : Series, (ess_svc_update_handler false drv s).chart_data series =
        s.chart_data series) ∧
      (ess_svc_update_handler false drv s).chart_readings = s.chart_readings := by
  refine ⟨update_lcd_graph_temperature_slots _ _ _ _ s hT,
    update_lcd_graph_chart_readings _ _ _ _ s, ?_, ?_, ?_,
    fun drv => ess_svc_update_handler_headless_history drv s⟩
  · intro series
    rw [update_lcd_graph_lcd_present _ _ _ _ s true]
    cases series <;> rfl
  · rw [update_lcd_graph_lcd_present _ _ _ _ s true]
  · rw [update_lcd_graph_eq]
    exact hl

set_option maxRecDepth 100000 in
/-- C12 (as amended), in the start state, where no display has been found. -/
theorem update_lcd_graph_pushes_without_display_witness :
    State.init.lcd_present = false ∧
    State.init.chart_data_buffer_temperature.length = 14 ∧
    int16_slots (update_lcd_graph 21 40 101300 5 State.init).chart_data_buffer_temperature =
      [int16_at State.init.chart_data_buffer_temperature 1,
       int16_at State.init.chart_data_buffer_temperature 2,
       int16_at State.init.chart_data_buffer_temperature 3,
       int16_at State.init.chart_data_buffer_temperature 4,
       int16_at State.init.chart_data_buffer_temperature 5,
       int16_at State.init.chart_data_buffer_temperature 6,
       to_int16 (float_to_int (21 : ℚ))] ∧
    (update_lcd_graph 21 40 101300 5 State.init).chart_readings =
      (if State.init.chart_readings < 7 then State.init.chart_readings + 1
       else State.init.chart_readings) :=
  ⟨rfl, rfl,
   (update_lcd_graph_pushes_without_display 21 40 101300 5 State.init rfl rfl).1,
   (update_lcd_graph_pushes_without_display 21 40 101300 5 State.init rfl rfl).2.1⟩

/-! ## lcd.c: the fast tick -/

theorem update_lcd_text_eq (s : State) :
    update_lcd_text s =
      { s with
        display_string_buffer := s.status_text
        calls := s.calls ++ [Call.lv_label_set_text s.status_text] } := by
  unfold update_lcd_text State.status_text State.call
  by_cases h : s.remote_device_connected = true <;> simp [h]

theorem ess_lcd_display_update_handler_lt (s : State) (h : s.display_update_count + 1 < 100) :
    ess_lcd_display_update_handler s =
      { s with
        display_update_count := s.display_update_count + 1
        calls := s.calls ++ [Call.lv_task_handler] } := by
  have e : to_uint16 ((s.display_update_count : Int) + 1) = s.display_update_count + 1 := by
    unfold to_uint16; omega
  have hn : ¬ (100 ≤ s.display_update_count + 1) := by omega
  simp [ess_lcd_display_update_handler, e, hn, State.call, DISPLAY_SCREEN_UPDATE_PERIOD_MS,
    DISPLAY_INPUT_PERIOD_MS]

theorem ess_lcd_display_update_handler_eq (s : State) (h : s.display_update_count + 1 = 100) :
    ess_lcd_display_update_handler s =
      { s with
        display_update_count := 0
        display_string_buffer := s.status_text
        calls := s.calls ++ [Call.lv_label_set_text s.status_text, Call.lv_task_handler] } := by
  have e : to_uint16 ((s.display_update_count : Int) + 1) = 100 := by
    unfold to_uint16; omega
  simp [ess_lcd_display_update_handler, e, State.call, DISPLAY_SCREEN_UPDATE_PERIOD_MS,
    DISPLAY_INPUT_PERIOD_MS, update_lcd_text_eq, State.status_text]

theorem fast_ticks_invariant (s : State) (h0 : s.display_update_count = 0) (n : Nat) :
    (fast_ticks n s).display_update_count = n % 100 ∧
    (fast_ticks n s).status_text = s.status_text := by
  induction n with
  | zero => exact ⟨by simpa [fast_ticks] using h0, rfl⟩
  | succ n ih =>
    show (ess_lcd_display_update_handler (fast_ticks n s)).display_update_count = (n + 1) % 100 ∧
      (ess_lcd_display_update_handler (fast_ticks n s)).status_text = s.status_text
    by_cases h : (fast_ticks n s).display_update_count + 1 < 100
    · rw [ess_lcd_display_update_handler_lt _ h]
      refine ⟨?_, ih.2⟩
      show (fast_ticks n s).display_update_count + 1 = (n + 1) % 100
      omega
    · have h' : (fast_ticks n s).display_update_count + 1 = 100 := by omega
      rw [ess_lcd_display_update_handler_eq _ h']
      refine ⟨?_, ih.2⟩
      show 0 = (n + 1) % 100
      omega

/-- C13: starting from `display_update_count = 0`, after any number `n` of runs
of `ess_lcd_display_update_handler` the counter is `n mod 100`, so below 100;
run number `n + 1` calls `lv_task_handler`, and before it refreshes the status
text (one `lv_label_set_text` from `update_lcd_text`) exactly when `n + 1` is a
multiple of 100; it makes no other call. -/
theorem ess_lcd_display_update_handler_every_100th (s : State)
    (h0 : s.display_update_count = 0) (n : Nat) :
    (fast_ticks n s).display_update_count = n % 100 ∧
    (fast_ticks n s).display_update_count < 100 ∧
    (fast_ticks (n + 1) s).calls =
      (fast_ticks n s).calls ++
        (if (n + 1) % 100 = 0 then [Call.lv_label_set_text s.status_text] else []) ++
        [Call.lv_task_handler] ∧
    (update_lcd_text s).calls = s.calls ++ [Call.lv_label_set_text s.status_text] := by
  have hi := fast_ticks_invariant s h0 n
  refine ⟨hi.1, by rw [hi.1]; exact Nat.mod_lt _ (by norm_num), ?_, by rw [update_lcd_text_eq]⟩
  show (ess_lcd_display_update_handler (fast_ticks n s)).calls = _
  by_cases h : (fast_ticks n s).display_update_count + 1 < 100
  · rw [ess_lcd_display_update_handler_lt _ h]
    have hm : ¬ ((n + 1) % 100 = 0) := by omega
    simp [hm]
  · have h' : (fast_ticks n s).display_update_count + 1 = 100 := by omega
    rw [ess_lcd_display_update_handler_eq _ h']
    have hm : (n + 1) % 100 = 0 := by omega
    simp [hm, hi.2]

/-- C13, from the start state: runs 1..99 only call `lv_task_handler`, run 100
refreshes the text first and leaves the counter at 0. -/
theorem ess_lcd_display_update_handler_every_100th_witness :
    State.init.display_update_count = 0 ∧
    (fast_ticks 99 State.init).display_update_count = 99 ∧
    (fast_ticks 100 State.init).display_update_count = 0 ∧
    (fast_ticks 100 State.init).calls =
      (fast_ticks 99 State.init).calls ++
        [Call.lv_label_set_text StatusText.advertising, Call.lv_task_handler] ∧
    (fast_ticks 99 State.init).calls =
      (fast_ticks 98 State.init).calls ++ [Call.lv_task_handler] := by
  have h99 := ess_lcd_display_update_handler_every_100th State.init rfl 99
  have h100 := ess_lcd_display_update_handler_every_100th State.init rfl 100
  have h98 := ess_lcd_display_update_handler_every_100th State.init rfl 98
  refine ⟨rfl, h99.1, h100.1, ?_, ?_⟩
  · rw [h99.2.2.1]; simp [State.status_text, State.init]
  · rw [h98.2.2.1]; simp

/-! ## lcd.c: the connected peer -/

theorem update_lcd_connected_address_connect (type : Nat) (address : List Nat) (s : State) :
    update_lcd_connected_address true type address s =
      { s with
        remote_device_connected := true
        remote_device_type := type
        remote_device_address := memcpy s.remote_device_address address SIZEOF_BT_ADDR
        display_string_buffer :=
          StatusText.connected type (memcpy s.remote_device_address address SIZEOF_BT_ADDR)
        calls := s.calls ++
          [Call.lv_label_set_text
            (StatusText.connected type (memcpy s.remote_device_address address SIZEOF_BT_ADDR))] } := by
  simp [update_lcd_connected_address, update_lcd_text_eq, State.status_text]

theorem update_lcd_connected_address_disconnect (type : Nat) (address : List Nat) (s : State) :
    update_lcd_connected_address false type address s =
      { s with
        remote_device_connected := false
        display_string_buffer := StatusText.advertising
        calls := s.calls ++ [Call.lv_label_set_text StatusText.advertising] } := by
  simp [update_lcd_connected_address, update_lcd_text_eq, State.status_text]

theorem memcpy_all (dst src : List Nat) (n : Nat) (hd : dst.length = n) (hs : src.length = n) :
    memcpy dst src n = src := by
  unfold memcpy
  rw [List.take_of_length_le (by omega), List.drop_of_length_le (by omega)]
  simp

/-- C14, as stated, fails on disconnect: after a peer of type 1 and address
1..6 has connected, `update_lcd_connected_address(false, 0, NULL)` clears only
`remote_device_connected`; the stored type is still 1 and the stored address
still 1..6, not zero. -/
theorem update_lcd_connected_address_keeps_peer :
    sample_connected.remote_device_connected = true ∧
    sample_connected.remote_device_type = 1 ∧
    sample_connected.remote_device_address = [1, 2, 3, 4, 5, 6] ∧
    (update_lcd_connected_address false 0 [] sample_connected).remote_device_connected = false ∧
    (update_lcd_connected_address false 0 [] sample_connected).remote_device_type = 1 ∧
    (update_lcd_connected_address false 0 [] sample_connected).remote_device_address =
      [1, 2, 3, 4, 5, 6] ∧
    (update_lcd_connected_address false 0 [] sample_connected).remote_device_type ≠ 0 ∧
    (update_lcd_connected_address false 0 [] sample_connected).remote_device_address ≠
      [0, 0, 0, 0, 0, 0] := by
  decide

/-- C14 (as amended): after `update_lcd_connected_address(true, type, addr)`
with a 6-byte `addr` the state is connected, with exactly that address type and
a copy of the 6 address bytes, and the status line shows them; after
`update_lcd_connected_address(false, 0, NULL)` `remote_device_connected` is
false, the stored address type and address are left as they were, and the
status line shows the advertising text. -/
theorem update_lcd_connected_address_follows (type : Nat) (address : List Nat) (s : State)
    (ha : address.length = 6) (hs : s.remote_device_address.length = 6) :
    (update_lcd_connected_address true type address s).remote_device_connected = true ∧
    (update_lcd_connected_address true type address s).remote_device_type = type ∧
    (update_lcd_connected_address true type address s).remote_device_address = address ∧
    (update_lcd_connected_address true type address s).display_string_buffer =
      StatusText.connected type address ∧
    (update_lcd_connected_address false 0 [] s).remote_device_connected = false ∧
    (update_lcd_connected_address false 0 [] s).remote_device_type = s.remote_device_type ∧
    (update_lcd_connected_address false 0 [] s).remote_device_address =
      s.remote_device_address ∧
    (update_lcd_connected_address false 0 [] s).display_string_buffer =
      StatusText.advertising := by
  rw [update_lcd_connected_address_connect, update_lcd_connected_address_disconnect]
  have hm : memcpy s.remote_device_address address SIZEOF_BT_ADDR = address :=
    memcpy_all _ _ _ hs ha
  refine ⟨rfl, rfl, hm, ?_, rfl, rfl, rfl, rfl⟩
  show StatusText.connected type (memcpy s.remote_device_address address SIZEOF_BT_ADDR) = _
  rw [hm]

/-- C14 (as amended), for a peer of type 1 and address 1..6 connecting to the
start state and disconnecting again. -/
theorem update_lcd_connected_address_follows_witness :
    ([1, 2, 3, 4, 5, 6] : List Nat).length = 6 ∧
    State.init.remote_device_address.length = 6 ∧
    (update_lcd_connected_address true 1 [1, 2, 3, 4, 5, 6] State.init).remote_device_address =
      [1, 2, 3, 4, 5, 6] ∧
    (update_lcd_connected_address false 0 [] sample_connected).remote_device_address =
      sample_connected.remote_device_address :=
  ⟨rfl, rfl,
   (update_lcd_connected_address_follows 1 [1, 2, 3, 4, 5, 6] State.init rfl rfl).2.2.1,
   (update_lcd_connected_address_follows 1 [1, 2, 3, 4, 5, 6] sample_connected rfl
     (by decide)).2.2.2.2.2.2.1⟩

/-! ## lcd.c: the charted pressure -/

theorem float_to_int_mem_Icc {α : Type} [LinearOrderedRing α] [FloorRing α] (x : α)
    (a b : Int) (ha : a ≤ 0) (hb : 0 ≤ b) (h1 : (a : α) ≤ x) (h2 : x ≤ (b : α)) :
    a ≤ float_to_int x ∧ float_to_int x ≤ b := by
  unfold float_to_int
  split
  · rename_i h0
    have hf : (0 : Int) ≤ ⌊x⌋ := Int.floor_nonneg.mpr h0
    refine ⟨le_trans ha hf, ?_⟩
    have : ((⌊x⌋ : Int) : α) ≤ (b : α) := le_trans (Int.floor_le x) h2
    exact_mod_cast this
  · rename_i h0
    have hx : x < 0 := lt_of_not_le h0
    have hc : ⌈x⌉ ≤ (0 : Int) := by
      rw [Int.ceil_le]; exact_mod_cast hx.le
    refine ⟨?_, le_trans hc hb⟩
    have : (a : α) ≤ ((⌈x⌉ : Int) : α) := le_trans h1 (Int.le_ceil x)
    exact_mod_cast this

theorem int16_at_last (buf : List Nat) : int16_at buf 6 = (int16_slots buf).getD 6 0 := rfl

theorem update_lcd_graph_pressure_slots
    (temperature humidity pressure dew_point : ℚ) (s : State)
    (hT : s.chart_data_buffer_temperature.length = 14)
    (hP : s.chart_data_buffer_pressure.length = 14) :
    int16_slots (update_lcd_graph temperature humidity pressure dew_point s).chart_data_buffer_pressure =
      [int16_at s.chart_data_buffer_temperature 2, int16_at s.chart_data_buffer_temperature 3,
       int16_at s.chart_data_buffer_temperature 4, int16_at s.chart_data_buffer_temperature 5,
       int16_at s.chart_data_buffer_temperature 6, int16_at s.chart_data_buffer_temperature 6,
       to_int16 (float_to_int (pressure / 100 - 980))] := by
  rw [update_lcd_graph_eq]
  exact int16_slots_shift_from_shifted _ _ _ hP hT

theorem update_lcd_graph_pressure_last (temperature humidity pressure dew_point : ℚ)
    (s : State) (hT : s.chart_data_buffer_temperature.length = 14)
    (hP : s.chart_data_buffer_pressure.length = 14) :
    int16_at (update_lcd_graph temperature humidity pressure dew_point s).chart_data_buffer_pressure 6 =
      to_int16 (float_to_int (pressure / 100 - 980)) := by
  rw [int16_at_last,
    (update_lcd_graph_pressure_slots temperature humidity pressure dew_point s hT hP)]
  rfl

/-- C15, as stated, fails: for 101300 Pa (within 96000..106000) the value
written to the last slot of the pressure buffer is `trunc(101300/100 - 980) = 33`,
below the secondary axis minimum 960. -/
theorem update_lcd_graph_pressure_below_secondary :
    (96000 : ℚ) ≤ 101300 ∧ (101300 : ℚ) ≤ 106000 ∧
    float_to_int ((101300 : ℚ) / 100 - 980) = 33 ∧
    int16_at (update_lcd_graph 21 40 101300 5 State.init).chart_data_buffer_pressure 6 = 33 ∧
    ¬ (CHART_Y_SECONDARY_MIN ≤
        int16_at (update_lcd_graph 21 40 101300 5 State.init).chart_data_buffer_pressure 6 ∧
      int16_at (update_lcd_graph 21 40 101300 5 State.init).chart_data_buffer_pressure 6 ≤
        CHART_Y_SECONDARY_MAX) := by
  have e : int16_at (update_lcd_graph 21 40 101300 5 State.init).chart_data_buffer_pressure 6
      = 33 := by
    with_unfolding_all decide
  refine ⟨by norm_num, by norm_num, by with_unfolding_all decide, e, ?_⟩
  rw [e]
  decide

/-- C15 (as amended): for every pressure `p` with `96000 ≤ p ≤ 106000` the value
`update_lcd_graph` writes to the last slot of the pressure buffer is
`trunc(p/100 - 980)`, which lies in `[-20, 80]`: inside the primary Y axis range
`[CHART_Y_PRIMARY_MIN, CHART_Y_PRIMARY_MAX] = [-20, 100]` and below the secondary
Y axis range `[960, 1060]`. -/
theorem update_lcd_graph_pressure_in_primary_range
    (temperature humidity pressure dew_point : ℚ) (s : State)
    (hlo : 96000 ≤ pressure) (hhi : pressure ≤ 106000)
    (hT : s.chart_data_buffer_temperature.length = 14)
    (hP : s.chart_data_buffer_pressure.length = 14) :
    int16_at (update_lcd_graph temperature humidity pressure dew_point s).chart_data_buffer_pressure 6 =
      float_to_int (pressure / PRESSURE_TO_Y_AXIS_DIVISION - PRESSURE_TO_Y_AXIS_SUBTRACTION) ∧
    -20 ≤ float_to_int (pressure / PRESSURE_TO_Y_AXIS_DIVISION - PRESSURE_TO_Y_AXIS_SUBTRACTION) ∧
    float_to_int (pressure / PRESSURE_TO_Y_AXIS_DIVISION - PRESSURE_TO_Y_AXIS_SUBTRACTION) ≤ 80 ∧
    CHART_Y_PRIMARY_MIN ≤
      float_to_int (pressure / PRESSURE_TO_Y_AXIS_DIVISION - PRESSURE_TO_Y_AXIS_SUBTRACTION) ∧
    float_to_int (pressure / PRESSURE_TO_Y_AXIS_DIVISION - PRESSURE_TO_Y_AXIS_SUBTRACTION) ≤
      CHART_Y_PRIMARY_MAX ∧
    float_to_int (pressure / PRESSURE_TO_Y_AXIS_DIVISION - PRESSURE_TO_Y_AXIS_SUBTRACTION) <
      CHART_Y_SECONDARY_MIN := by
  have hb := float_to_int_mem_Icc (pressure / 100 - 980) (-20) 80 (by norm_num) (by norm_num)
    (by push_cast; linarith) (by push_cast; linarith)
  unfold PRESSURE_TO_Y_AXIS_DIVISION PRESSURE_TO_Y_AXIS_SUBTRACTION CHART_Y_PRIMARY_MIN
    CHART_Y_PRIMARY_MAX CHART_Y_SECONDARY_MIN
  refine ⟨?_, hb.1, hb.2, hb.1, by linarith [hb.2], by linarith [hb.2]⟩
  rw [update_lcd_graph_pressure_last _ _ _ _ s hT hP]
  exact to_int16_of_fits _ ⟨by linarith [hb.1], by linarith [hb.2]⟩

/-- C15 (as amended), for 96000 Pa and the start state: the charted value is
-20, the primary axis minimum. -/
theorem update_lcd_graph_pressure_in_primary_range_witness :
    (96000 : ℚ) ≤ 96000 ∧ (96000 : ℚ) ≤ 106000 ∧
    int16_at (update_lcd_graph 21 40 96000 5 State.init).chart_data_buffer_pressure 6 =
      float_to_int ((96000 : ℚ) / PRESSURE_TO_Y_AXIS_DIVISION - PRESSURE_TO_Y_AXIS_SUBTRACTION) ∧
    float_to_int ((96000 : ℚ) / PRESSURE_TO_Y_AXIS_DIVISION - PRESSURE_TO_Y_AXIS_SUBTRACTION) =
      -20 :=
  ⟨le_refl _, by norm_num,
   (update_lcd_graph_pressure_in_primary_range 21 40 96000 5 State.init (le_refl _)
     (by norm_num) rfl rfl).1,
   by with_unfolding_all decide⟩

/-! ## dewpoint.c: algebra of the formula -/

theorem dew_point_hTmp_eq (fTemp fHum : ℝ) :
    dew_point_hTmp fTemp fHum =
      243.12 * dew_point_h fTemp fHum / (17.62 - dew_point_h fTemp fHum) := rfl

theorem logb_ten_hundred : Real.logb 10 100 = 2 := by
  have e : (100 : ℝ) = (10 : ℝ) ^ (2 : ℕ) := by norm_num
  rw [e, Real.logb_pow, Real.logb_self_eq_one (by norm_num)]
  norm_num

theorem float_to_int_mem_Ioo {α : Type} [LinearOrderedRing α] [FloorRing α] (x : α)
    (a b : Int) (ha : a < 0) (hb : 0 < b) (h1 : (a : α) < x) (h2 : x < (b : α)) :
    a < float_to_int x ∧ float_to_int x < b := by
  unfold float_to_int
  split
  · rename_i h0
    have hf : (0 : Int) ≤ ⌊x⌋ := Int.floor_nonneg.mpr h0
    refine ⟨lt_of_lt_of_le ha hf, ?_⟩
    have : ((⌊x⌋ : Int) : α) < (b : α) := lt_of_le_of_lt (Int.floor_le x) h2
    exact_mod_cast this
  · rename_i h0
    have hx : x < 0 := lt_of_not_le h0
    have hc : ⌈x⌉ ≤ (0 : Int) := by
      rw [Int.ceil_le]; exact_mod_cast hx.le
    refine ⟨?_, lt_of_le_of_lt hc hb⟩
    have : (a : α) < ((⌈x⌉ : Int) : α) := lt_of_lt_of_le h1 (Int.le_ceil x)
    exact_mod_cast this

theorem to_int8_of_fits (x : Int) (h : -128 ≤ x ∧ x ≤ 127) : to_int8 x = x := by
  unfold to_int8; omega

theorem dew_point_hTmp_at_100 (T : ℝ) (hT : T ≠ -243.12) : dew_point_hTmp T 100 = T := by
  have hne : (243.12 : ℝ) + T ≠ 0 := by
    intro h
    apply hT
    linarith
  rw [dew_point_hTmp_eq]
  unfold dew_point_h
  rw [logb_ten_hundred]
  have hd : (17.62 : ℝ) - ((2 - 2) / 0.4343 + 17.62 * T / (243.12 + T))
      = 17.62 * 243.12 / (243.12 + T) := by
    field_simp
    ring
  have hn : (243.12 : ℝ) * ((2 - 2) / 0.4343 + 17.62 * T / (243.12 + T))
      = 243.12 * 17.62 * T / (243.12 + T) := by
    field_simp
    ring
  rw [hd, hn]
  field_simp
  ring

theorem dew_point_h_lt (T H : ℝ) (hT : -243.12 < T) (hH : 0 < H) (hH' : H ≤ 100) :
    dew_point_h T H < 17.62 := by
  have hpos : (0 : ℝ) < 243.12 + T := by linarith
  have hl : Real.logb 10 H ≤ 2 := by
    rw [← logb_ten_hundred]
    exact Real.logb_le_logb_of_le (by norm_num) hH hH'
  have ha : (Real.logb 10 H - 2) / 0.4343 ≤ 0 :=
    div_nonpos_of_nonpos_of_nonneg (by linarith) (by norm_num)
  have hb : 17.62 * T / (243.12 + T) < 17.62 := by
    rw [div_lt_iff₀ hpos]
    linarith
  unfold dew_point_h
  linarith

theorem dew_point_h_mono (T H1 H2 : ℝ) (h1 : 0 < H1) (h12 : H1 ≤ H2) :
    dew_point_h T H1 ≤ dew_point_h T H2 := by
  have hl : Real.logb 10 H1 ≤ Real.logb 10 H2 :=
    Real.logb_le_logb_of_le (by norm_num) h1 h12
  have ha : (Real.logb 10 H1 - 2) / 0.4343 ≤ (Real.logb 10 H2 - 2) / 0.4343 :=
    div_le_div_of_nonneg_right (by linarith) (by norm_num)
  unfold dew_point_h
  linarith

theorem magnus_mono (h1 h2 : ℝ) (h12 : h1 ≤ h2) (h2lt : h2 < 17.62) :
    243.12 * h1 / (17.62 - h1) ≤ 243.12 * h2 / (17.62 - h2) := by
  have p1 : (0 : ℝ) < 17.62 - h1 := by linarith
  have p2 : (0 : ℝ) < 17.62 - h2 := by linarith
  rw [div_le_div_iff₀ p1 p2]
  have e : 243.12 * h2 * (17.62 - h1) - 243.12 * h1 * (17.62 - h2)
      = 243.12 * 17.62 * (h2 - h1) := by ring
  have : (0 : ℝ) ≤ 243.12 * 17.62 * (h2 - h1) :=
    mul_nonneg (by norm_num) (by linarith)
  linarith

theorem dew_point_hTmp_mono (T H1 H2 : ℝ) (hT : -243.12 < T) (h1 : 0 < H1) (h12 : H1 ≤ H2)
    (h2 : H2 ≤ 100) : dew_point_hTmp T H1 ≤ dew_point_hTmp T H2 := by
  rw [dew_point_hTmp_eq, dew_point_hTmp_eq]
  exact magnus_mono _ _ (dew_point_h_mono T H1 H2 h1 h12)
    (dew_point_h_lt T H2 hT (lt_of_lt_of_le h1 h12) h2)

theorem dew_point_hTmp_le (T H : ℝ) (hT : -243.12 < T) (hH : 0 < H) (hH' : H ≤ 100) :
    dew_point_hTmp T H ≤ T := by
  have h := dew_point_hTmp_mono T H 100 hT hH hH' (le_refl _)
  rw [dew_point_hTmp_at_100 T (ne_of_gt hT)] at h
  exact h

/-- C18: for every real temperature `T > -243.12`, the exact value of the
formula of `calculate_dew_point` is at most `T` for every humidity `H` with
`0 < H ≤ 100`, and it is non-decreasing in `H` on that range. -/
theorem dew_point_never_exceeds_temperature (T : ℝ) (hT : -243.12 < T) :
    (∀ H : ℝ, 0 < H → H ≤ 100 → dew_point_hTmp T H ≤ T) ∧
    (∀ H1 H2 : ℝ, 0 < H1 → H1 ≤ H2 → H2 ≤ 100 →
      dew_point_hTmp T H1 ≤ dew_point_hTmp T H2) :=
  ⟨fun H hH hH' => dew_point_hTmp_le T H hT hH hH',
   fun H1 H2 h1 h12 h2 => dew_point_hTmp_mono T H1 H2 hT h1 h12 h2⟩

/-- C18, at 25 °C: the exact dew point at 50 % is at most 25 and at most the
exact dew point at 90 %. -/
theorem dew_point_never_exceeds_temperature_witness :
    (-243.12 : ℝ) < 25 ∧ dew_point_hTmp 25 50 ≤ 25 ∧
    dew_point_hTmp 25 50 ≤ dew_point_hTmp 25 90 :=
  ⟨by norm_num,
   (dew_point_never_exceeds_temperature 25 (by norm_num)).1 50 (by norm_num) (by norm_num),
   (dew_point_never_exceeds_temperature 25 (by norm_num)).2 50 90 (by norm_num) (by norm_num)
     (by norm_num)⟩

/-! ## dewpoint.c: range of the result -/

theorem dew_point_h_ge (T H : ℝ) (hT : -40 ≤ T) (hH : 1 ≤ H) : -9 ≤ dew_point_h T H := by
  have hpos : (0 : ℝ) < 243.12 + T := by linarith
  have hl : 0 ≤ Real.logb 10 H := Real.logb_nonneg (by norm_num) hH
  have ha : -5 ≤ (Real.logb 10 H - 2) / 0.4343 := by
    rw [le_div_iff₀ (by norm_num)]
    linarith
  have hb : -4 ≤ 17.62 * T / (243.12 + T) := by
    rw [le_div_iff₀ hpos]
    linarith
  unfold dew_point_h
  linarith

theorem dew_point_hTmp_gt (T H : ℝ) (hT : -40 ≤ T) (hH : 1 ≤ H) (hH' : H ≤ 100) :
    -128 < dew_point_hTmp T H := by
  have hlt := dew_point_h_lt T H (by linarith) (by linarith) hH'
  have hge := dew_point_h_ge T H hT hH
  have hpos : (0 : ℝ) < 17.62 - dew_point_h T H := by linarith
  rw [dew_point_hTmp_eq, lt_div_iff₀ hpos]
  linarith

/-- C19: for every temperature `T` in `[-40, 85]` and humidity `H` in
`[1, 100]` the denominator `17.62 - h` of the dew-point formula is positive and
the exact value of the formula lies strictly between -128 and 128, so its
truncation toward zero lies in `[-128, 127]` and `calculate_dew_point` returns
it unchanged by the conversion to `int8_t`. -/
theorem calculate_dew_point_in_int8_range (T H : ℝ) (hT : -40 ≤ T) (hT' : T ≤ 85)
    (hH : 1 ≤ H) (hH' : H ≤ 100) :
    0 < 17.62 - dew_point_h T H ∧
    -128 < dew_point_hTmp T H ∧ dew_point_hTmp T H < 128 ∧
    -128 ≤ float_to_int (dew_point_hTmp T H) ∧ float_to_int (dew_point_hTmp T H) ≤ 127 ∧
    calculate_dew_point T H = float_to_int (dew_point_hTmp T H) := by
  have hlt := dew_point_h_lt T H (by linarith) (by linarith) hH'
  have hlo := dew_point_hTmp_gt T H hT hH hH'
  have hhi : dew_point_hTmp T H < 128 :=
    lt_of_le_of_lt (dew_point_hTmp_le T H (by linarith) (by linarith) hH') (by linarith)
  have hb := float_to_int_mem_Ioo (dew_point_hTmp T H) (-128) 128 (by norm_num) (by norm_num)
    (by push_cast; exact hlo) (by push_cast; exact hhi)
  have h1 : -128 ≤ float_to_int (dew_point_hTmp T H) := by linarith [hb.1]
  have h2 : float_to_int (dew_point_hTmp T H) ≤ 127 := by linarith [hb.2]
  refine ⟨by linarith, hlo, hhi, h1, h2, ?_⟩
  unfold calculate_dew_point
  exact to_int8_of_fits _ ⟨h1, h2⟩

/-- C19, at 25 °C and 50 %: the exact dew point lies between -128 and 128 and
the function returns its truncation, 13. -/
theorem calculate_dew_point_in_int8_range_witness :
    (-40 : ℝ) ≤ 25 ∧ (25 : ℝ) ≤ 85 ∧ (1 : ℝ) ≤ 50 ∧ (50 : ℝ) ≤ 100 ∧
    0 < 17.62 - dew_point_h 25 50 ∧
    -128 < dew_point_hTmp 25 50 ∧ dew_point_hTmp 25 50 < 128 ∧
    calculate_dew_point 25 50 = float_to_int (dew_point_hTmp 25 50) :=
  ⟨by norm_num, by norm_num, by norm_num, by norm_num,
   (calculate_dew_point_in_int8_range 25 50 (by norm_num) (by norm_num) (by norm_num)
     (by norm_num)).1,
   (calculate_dew_point_in_int8_range 25 50 (by norm_num) (by norm_num) (by norm_num)
     (by norm_num)).2.1,
   (calculate_dew_point_in_int8_range 25 50 (by norm_num) (by norm_num) (by norm_num)
     (by norm_num)).2.2.1,
   (calculate_dew_point_in_int8_range 25 50 (by norm_num) (by norm_num) (by norm_num)
     (by norm_num)).2.2.2.2.2⟩

end EssDemo
